import Mathlib

/-!
# Parameter checking of the orq FEC (RaptorQ) parameter core

Shallow embedding of `src/parameters/InternalFunctions.cpp` and
`src/parameters/ParameterChecker.cpp`, and of the value object declared in
`include/parameters/FECParameters.h`.

Unsigned machine integers are natural numbers reduced modulo `2 ^ w` at every
place where the C++ source converts to a `w`-bit type; the signed locals of the
source (`int`, `long`) are integers wrapped into the two's complement range.
-/

namespace Orq

/-! ## Machine integers -/

/-- Conversion to `uint8_t`. -/
def u8 (x : Nat) : Nat := x % 2 ^ 8

/-- Conversion to `uint16_t`. -/
def u16 (x : Nat) : Nat := x % 2 ^ 16

/-- Conversion to `uint32_t`. -/
def u32 (x : Nat) : Nat := x % 2 ^ 32

/-- Conversion to `uint64_t`. -/
def u64 (x : Nat) : Nat := x % 2 ^ 64

/-- Conversion to `int` (32-bit two's complement). -/
def toInt (x : Int) : Int := (x + 2 ^ 31) % 2 ^ 32 - 2 ^ 31

/-- Conversion to `long` (64-bit two's complement, the LP64 data model). -/
def toLong (x : Int) : Int := (x + 2 ^ 63) % 2 ^ 64 - 2 ^ 63

/-- Conversion of a signed value to the unsigned type of `w` bits. -/
def ofInt (w : Nat) (x : Int) : Nat := (x % 2 ^ w).toNat

/-! ## Parts of the repository that are not among the sources -/

/-- Modelled from the spec: the constant table `InternalConstants` (header
`parameters/InternalConstants.h`) is not among the sources, so the scheme
constants are a parameter of every function that reads them.  `Kt_max_bits` is
the width of the type in which the source evaluates the product
`T * InternalConstants::Kt_max`, that is the common type of `int` and of the
declared type of `Kt_max`; the product is reduced modulo `2 ^ Kt_max_bits`, as
for an unsigned type (a signed type of that width overflows at the same
products). -/
structure InternalConstants where
  F_min : Nat
  F_max : Nat
  T_min : Nat
  T_max : Nat
  Z_min : Nat
  Z_max : Nat
  N_min : Nat
  N_max : Nat
  K_min : Nat
  K_max : Nat
  Kt_max : Nat
  Al : Nat
  SBN_min : Nat
  SBN_max : Nat
  ESI_min : Nat
  ESI_max : Nat
  Kt_max_bits : Nat

/-- Every constant is representable in the type in which the source returns or
uses it: 64 bits for data lengths, 16 bits for symbol sizes, block counts,
interleaver lengths and symbol counts per block, 8 bits for the alignment and
the source block numbers, 32 bits for encoding symbol identifiers. -/
def InternalConstants.WellTyped (c : InternalConstants) : Prop :=
  c.F_min < 2 ^ 64 ∧ c.F_max < 2 ^ 64 ∧ c.T_min < 2 ^ 16 ∧ c.T_max < 2 ^ 16 ∧
  c.Z_min < 2 ^ 16 ∧ c.Z_max < 2 ^ 16 ∧ c.N_min < 2 ^ 16 ∧ c.N_max < 2 ^ 16 ∧
  c.K_min < 2 ^ 16 ∧ c.K_max < 2 ^ 16 ∧ c.Kt_max < 2 ^ c.Kt_max_bits ∧
  c.Al < 2 ^ 8 ∧ c.SBN_min < 2 ^ 8 ∧ c.SBN_max < 2 ^ 8 ∧
  c.ESI_min < 2 ^ 32 ∧ c.ESI_max < 2 ^ 32

instance (c : InternalConstants) : Decidable c.WellTyped := by
  unfold InternalConstants.WellTyped; infer_instance

/-- Modelled from the spec: the values of the constant table are not among the
sources.  The spec places the scheme in the RaptorQ family and leaves the
values to its governing specification; these are the values of RFC 6330: at
most `K_max = 56403` source symbols per block, at most `Z_max = 256` source
blocks, `Kt_max = K_max * Z_max`, symbol sizes up to `65535` with alignment
`1`, `F_max = Kt_max * T_max` (the 40 bits of the spec's data model), source
block numbers up to `255` and encoding symbol identifiers up to `2 ^ 24 - 1`.
Interleaving is switched off (`N_max = 1`) and `Kt_max` is held in a 32-bit
type.  The instance is used to evaluate the code at concrete inputs. -/
def raptorQ : InternalConstants where
  F_min := 1
  F_max := 946270874880
  T_min := 1
  T_max := 65535
  Z_min := 1
  Z_max := 256
  N_min := 1
  N_max := 1
  K_min := 1
  K_max := 56403
  Kt_max := 14439168
  Al := 1
  SBN_min := 0
  SBN_max := 255
  ESI_min := 0
  ESI_max := 16777215
  Kt_max_bits := 32

/-- Modelled from the spec: the ceiling-division helper (`ExtraMath::ceilDiv`,
`extra_math::ceil_div`) is not among the sources; the spec describes it as
"ceiling-division helper over unsigned integer pairs", `ceil(num / den)`.  The
result is exact (no narrowing inside the helper); a zero divisor gives `0`. -/
def ceilDiv (num den : Nat) : Nat := (num + (den - 1)) / den

/-- Modelled from the spec: `systematic_indices::floor` is not among the
sources; the spec describes `floorToSystematic(x)` as the "largest supported
value `<= x`" of the supported systematic block size sequence `table`.  Below
the whole sequence the least supported value is returned, so that the function
is total and stays within the range of the sequence. -/
def floorToSystematic (table : List Nat) (x : Nat) : Nat :=
  match (table.filter (fun k => decide (k ≤ x))).max? with
  | some k => k
  | none => (table.min?).getD 0

/-- Modelled from the spec: `systematic_indices::ceil` is not among the
sources; the spec describes `ceilToSystematic(x)` as the "smallest supported
value `>= x`" of the supported systematic block size sequence `table`.  Above
the whole sequence the greatest supported value is returned. -/
def ceilToSystematic (table : List Nat) (x : Nat) : Nat :=
  match (table.filter (fun k => decide (x ≤ k))).min? with
  | some k => k
  | none => (table.max?).getD 0

/-- Modelled from the spec: a supported systematic block size sequence, used
only to evaluate the code at concrete inputs.  Its least member is `10`, the
value the source hard-codes for `K_prime_min`, and its greatest member is the
`K_max` of `raptorQ`. -/
def sampleSystematic : List Nat :=
  [10, 12, 18, 20, 26, 30, 32, 36, 42, 46, 48, 49, 55, 56403]

/-! ## InternalFunctions.cpp -/

/-- Source: `InternalFunctions::getPossibleTotalSymbols`. -/
def getPossibleTotalSymbols (F T : Nat) : Nat := u64 (ceilDiv F T)

/-- Source: `InternalFunctions::getTotalSymbols`. -/
def getTotalSymbols (F T : Nat) : Nat := u64 (ceilDiv F T)

/-- Source: `InternalFunctions::topInterleaverLength`;
`SStimesAl` is initialised with `T` itself. -/
def topInterleaverLength (T : Nat) : Nat :=
  let SStimesAl := T
  u16 (T / SStimesAl)

/-- Source: `InternalFunctions::subSymbolSize`. -/
def subSymbolSize (T Al n : Nat) : Nat := u16 (Al * ceilDiv T (Al * n))

/-- Source: the local `K_upper_bound` of `InternalFunctions::KL`, the value
handed to `systematic_indices::floor`. -/
def K_upper_bound (c : InternalConstants) (WS T Al n : Nat) : Nat :=
  u16 (min (u16 c.K_max) (u16 (WS / subSymbolSize T Al n)))

/-- Source: `InternalFunctions::KL`; `sysFloor` stands for
`systematic_indices::floor`. -/
def KL (c : InternalConstants) (sysFloor : Nat → Nat) (WS T Al n : Nat) : Nat :=
  u16 (sysFloor (K_upper_bound c WS T Al n))

/-- Source: `InternalFunctions::minWS`; `sysCeil` stands for
`systematic_indices::ceil`. -/
def minWS (sysCeil : Nat → Nat) (Kprime T Al n : Nat) : Nat :=
  u64 (u64 (sysCeil Kprime) * subSymbolSize T Al n)

/-! ## ParameterChecker.cpp: absolute bounds -/

/-- Source: `ParameterChecker::minDataLength`. -/
def minDataLength (c : InternalConstants) : Nat := u64 c.F_min

/-- Source: `ParameterChecker::maxDataLength`. -/
def maxDataLength (c : InternalConstants) : Nat := u64 c.F_max

/-- Source: `ParameterChecker::isDataLengthOutOfBounds`. -/
def isDataLengthOutOfBounds (c : InternalConstants) (dataLen : Nat) : Bool :=
  !(decide (minDataLength c ≤ dataLen) && decide (dataLen ≤ maxDataLength c))

/-- Source: `ParameterChecker::minSymbolSize`. -/
def minSymbolSize (c : InternalConstants) : Nat := u16 c.T_min

/-- Source: `ParameterChecker::maxSymbolSize`. -/
def maxSymbolSize (c : InternalConstants) : Nat := u16 c.T_max

/-- Source: `ParameterChecker::isSymbolSizeOutOfBounds`. -/
def isSymbolSizeOutOfBounds (c : InternalConstants) (symbSize : Nat) : Bool :=
  !(decide (minSymbolSize c ≤ symbSize) && decide (symbSize ≤ maxSymbolSize c))

/-- Source: `ParameterChecker::minNumSourceBlocks` (returns `uint16_t`). -/
def minNumSourceBlocks (c : InternalConstants) : Nat := u16 c.Z_min

/-- Source: `ParameterChecker::maxNumSourceBlocks` (returns `uint16_t`). -/
def maxNumSourceBlocks (c : InternalConstants) : Nat := u16 c.Z_max

/-- Source: `ParameterChecker::isNumSourceBlocksOutOfBounds`. -/
def isNumSourceBlocksOutOfBounds (c : InternalConstants) (numSrcBs : Nat) : Bool :=
  !(decide (minNumSourceBlocks c ≤ numSrcBs) && decide (numSrcBs ≤ maxNumSourceBlocks c))

/-- Source: `ParameterChecker::minInterleaverLength`. -/
def minInterleaverLength (c : InternalConstants) : Nat := u16 c.N_min

/-- Source: `ParameterChecker::maxInterleaverLength`. -/
def maxInterleaverLength (c : InternalConstants) : Nat := u16 c.N_max

/-- Source: `ParameterChecker::isInterleaverLengthOutOfBounds`. -/
def isInterleaverLengthOutOfBounds (c : InternalConstants) (interLen : Nat) : Bool :=
  !(decide (minInterleaverLength c ≤ interLen) && decide (interLen ≤ maxInterleaverLength c))

/-- Source: `ParameterChecker::symbolAlignmentValue`. -/
def symbolAlignmentValue (c : InternalConstants) : Nat := u8 c.Al

/-- Source: `ParameterChecker::minPayloadLength`. -/
def minPayloadLength (c : InternalConstants) : Nat := minSymbolSize c

/-- Source: `ParameterChecker::maxPayloadLength`. -/
def maxPayloadLength (c : InternalConstants) : Nat := maxSymbolSize c

/-- Source: `ParameterChecker::isPayloadLengthOutOfBounds`. -/
def isPayloadLengthOutOfBounds (c : InternalConstants) (payLen : Nat) : Bool :=
  !(decide (minPayloadLength c ≤ payLen) && decide (payLen ≤ maxPayloadLength c))

/-! ## ParameterChecker.cpp: private conditional bounds -/

/-- Source: `ParameterChecker::_maxAllowedDataLength(uint16_t)`; the product
`T * Kt_max` is evaluated in the type of `Kt_max` before it is widened. -/
def _maxAllowedDataLength (c : InternalConstants) (T : Nat) : Nat :=
  min (maxDataLength c) (u64 ((T * c.Kt_max) % 2 ^ c.Kt_max_bits))

/-- Source: `ParameterChecker::_minAllowedSymbolSize`. -/
def _minAllowedSymbolSize (c : InternalConstants) (F : Nat) : Nat :=
  max (minSymbolSize c) (u16 (ceilDiv F c.Kt_max))

/-- Source: `ParameterChecker::_minAllowedNumSourceBlocks`; the argument is a
`uint16_t`. -/
def _minAllowedNumSourceBlocks (c : InternalConstants) (Kt : Nat) : Nat :=
  max (minNumSourceBlocks c) (u16 (ceilDiv Kt c.K_max))

/-- Source: `ParameterChecker::_maxAllowedNumSourceBlocks`; the argument is a
`uint16_t`. -/
def _maxAllowedNumSourceBlocks (c : InternalConstants) (Kt : Nat) : Nat :=
  min (maxNumSourceBlocks c) Kt

/-- Source: `ParameterChecker::_maxAllowedInterleaverLength`. -/
def _maxAllowedInterleaverLength (c : InternalConstants) (T : Nat) : Nat :=
  min (maxInterleaverLength c) (u16 (T / c.Al))

/-- Source: `ParameterChecker::_minAllowedDecodingBlockSize`.  `Kt` and `Kprime`
are `int` locals; the ceiling division helper takes unsigned operands, and `Kt`
is non-negative whenever `ceil(F / T) < 2 ^ 31`.  `K_prime_min` is hard-coded
to `10` in the source. -/
def _minAllowedDecodingBlockSize (c : InternalConstants) (sysCeil : Nat → Nat)
    (F T : Nat) : Nat :=
  let Kt : Int := toInt (getTotalSymbols F T)
  let Kprime : Int := max 10 (toInt (ceilDiv Kt.toNat c.Z_max))
  minWS sysCeil (ofInt 16 Kprime) T (u8 c.Al) (topInterleaverLength T)

/-- Source: `ParameterChecker::_maxAllowedDataLength(uint16_t, uint64_t)`;
`boundFromT`, `boundFromWS` are `long` locals and `KL` is an `int` local. -/
def _maxAllowedDataLengthWS (c : InternalConstants) (sysFloor : Nat → Nat)
    (T WS : Nat) : Nat :=
  let boundFromT : Int := toLong (_maxAllowedDataLength c T)
  let KL : Int := toInt (KL c sysFloor WS T (u8 c.Al) (topInterleaverLength T))
  let boundFromWS : Int := toLong (toLong (toLong c.Z_max * KL) * T)
  ofInt 64 (min boundFromT boundFromWS)

/-- Source: `ParameterChecker::_areDataLengthAndSymbolSizeOutOfBounds`. -/
def _areDataLengthAndSymbolSizeOutOfBounds (c : InternalConstants) (F T : Nat) : Bool :=
  decide (getPossibleTotalSymbols F T > c.Kt_max)

/-- Source: `ParameterChecker::_areDataLengthAndPayloadLengthOutOfBounds`. -/
def _areDataLengthAndPayloadLengthOutOfBounds (c : InternalConstants) (F P : Nat) : Bool :=
  _areDataLengthAndSymbolSizeOutOfBounds c F P

/-- Source: `ParameterChecker::minDecodingBlockSize`. -/
def minDecodingBlockSize (c : InternalConstants) (sysCeil : Nat → Nat) : Nat :=
  _minAllowedDecodingBlockSize c sysCeil (minDataLength c) (minSymbolSize c)

/-! ## ParameterChecker.cpp: checks that signal `std::invalid_argument` -/

/-- Source: `ParameterChecker::_checkDataLengthOutOfBounds`. -/
def _checkDataLengthOutOfBounds (c : InternalConstants) (F : Nat) : Except String Unit :=
  if isDataLengthOutOfBounds c F then
    .error "source data length is out of bounds"
  else .ok ()

/-- Source: `ParameterChecker::_checkSymbolSizeOutOfBounds`. -/
def _checkSymbolSizeOutOfBounds (c : InternalConstants) (T : Nat) : Except String Unit :=
  if isSymbolSizeOutOfBounds c T then
    .error "symbol size is out of bounds"
  else .ok ()

/-- Source: `ParameterChecker::_checkDataLengthAndSymbolSizeOutOfBounds`. -/
def _checkDataLengthAndSymbolSizeOutOfBounds (c : InternalConstants) (F T : Nat) :
    Except String Unit :=
  if _areDataLengthAndSymbolSizeOutOfBounds c F T then
    .error "source data length and symbol size are out of bounds in unison"
  else .ok ()

/-- Source: `ParameterChecker::_checkNumSourceBlocksOutOfBounds`. -/
def _checkNumSourceBlocksOutOfBounds (c : InternalConstants) (Z : Nat) : Except String Unit :=
  if isNumSourceBlocksOutOfBounds c Z then
    .error "number of source blocks is out of bounds"
  else .ok ()

/-- Source: `ParameterChecker::_checkPayloadLengthOutOfBounds`. -/
def _checkPayloadLengthOutOfBounds (c : InternalConstants) (P : Nat) : Except String Unit :=
  if isPayloadLengthOutOfBounds c P then
    .error "payload length is out of bounds"
  else .ok ()

/-- Source: `ParameterChecker::_checkDataLengthAndPayloadLengthOutOfBounds`. -/
def _checkDataLengthAndPayloadLengthOutOfBounds (c : InternalConstants) (F P : Nat) :
    Except String Unit :=
  if _areDataLengthAndPayloadLengthOutOfBounds c F P then
    .error "source data length and payload length are out of bounds in unison"
  else .ok ()

/-- Source: `ParameterChecker::_checkDecodingBlockSizeOutOfBounds`. -/
def _checkDecodingBlockSizeOutOfBounds (c : InternalConstants) (sysCeil : Nat → Nat)
    (WS : Nat) : Except String Unit :=
  if WS < minDecodingBlockSize c sysCeil then
    .error "maximum decoding block size is out of bounds"
  else .ok ()

/-! ## ParameterChecker.cpp: public conditional bounds -/

/-- Source: `ParameterChecker::maxAllowedDataLength(uint16_t)`. -/
def maxAllowedDataLength (c : InternalConstants) (symbSize : Nat) : Except String Nat := do
  _checkSymbolSizeOutOfBounds c symbSize
  return _maxAllowedDataLength c symbSize

/-- Source: `ParameterChecker::minAllowedSymbolSize`. -/
def minAllowedSymbolSize (c : InternalConstants) (dataLen : Nat) : Except String Nat := do
  _checkDataLengthOutOfBounds c dataLen
  return _minAllowedSymbolSize c dataLen

/-- Source: `ParameterChecker::minAllowedNumSourceBlocks`; `Kt` is a `uint32_t`
local, the helper takes a `uint16_t`, the result is returned as `uint8_t`. -/
def minAllowedNumSourceBlocks (c : InternalConstants) (dataLen symbSize : Nat) :
    Except String Nat := do
  _checkDataLengthOutOfBounds c dataLen
  _checkSymbolSizeOutOfBounds c symbSize
  _checkDataLengthAndSymbolSizeOutOfBounds c dataLen symbSize
  let Kt := u32 (getTotalSymbols dataLen symbSize)
  return u8 (_minAllowedNumSourceBlocks c (u16 Kt))

/-- Source: `ParameterChecker::maxAllowedNumSourceBlocks`; `Kt` is a `uint16_t`
local, the result is returned as `uint8_t`. -/
def maxAllowedNumSourceBlocks (c : InternalConstants) (dataLen symbSize : Nat) :
    Except String Nat := do
  _checkDataLengthOutOfBounds c dataLen
  _checkSymbolSizeOutOfBounds c symbSize
  _checkDataLengthAndSymbolSizeOutOfBounds c dataLen symbSize
  let Kt := u16 (getTotalSymbols dataLen symbSize)
  return u8 (_maxAllowedNumSourceBlocks c Kt)

/-- Source: `ParameterChecker::maxAllowedInterleaverLength`. -/
def maxAllowedInterleaverLength (c : InternalConstants) (symbSize : Nat) :
    Except String Nat := do
  _checkSymbolSizeOutOfBounds c symbSize
  return _maxAllowedInterleaverLength c symbSize

/-- Source: `ParameterChecker::minAllowedPayloadLength`. -/
def minAllowedPayloadLength (c : InternalConstants) (dataLen : Nat) : Except String Nat :=
  minAllowedSymbolSize c dataLen

/-- Source: `ParameterChecker::minAllowedDecodingBlockSize`. -/
def minAllowedDecodingBlockSize (c : InternalConstants) (sysCeil : Nat → Nat)
    (dataLen payLen : Nat) : Except String Nat := do
  _checkDataLengthOutOfBounds c dataLen
  _checkPayloadLengthOutOfBounds c payLen
  _checkDataLengthAndPayloadLengthOutOfBounds c dataLen payLen
  return _minAllowedDecodingBlockSize c sysCeil dataLen payLen

/-! ## ParameterChecker.cpp: composite predicates -/

/-- Source: `ParameterChecker::areValidFECParameters`.  `Kt`, `minAllowedZ`,
`maxAllowedZ` and `maxAllowedN` are `int` locals; `Kt` is handed to helpers
whose parameter is a `uint16_t`. -/
def areValidFECParameters (c : InternalConstants)
    (dataLen symbSize numSrcBs interLen : Nat) : Bool :=
  let F := dataLen
  let T := symbSize
  let Z := numSrcBs
  let N := interLen
  if isDataLengthOutOfBounds c F then false
  else if isSymbolSizeOutOfBounds c T then false
  else if isNumSourceBlocksOutOfBounds c Z then false
  else if isInterleaverLengthOutOfBounds c N then false
  else if _areDataLengthAndSymbolSizeOutOfBounds c F T then false
  else
    let Kt : Int := toInt (getTotalSymbols F T)
    let minAllowedZ : Int := toInt (_minAllowedNumSourceBlocks c (ofInt 16 Kt))
    let maxAllowedZ : Int := toInt (_maxAllowedNumSourceBlocks c (ofInt 16 Kt))
    if (Z : Int) < minAllowedZ || (Z : Int) > maxAllowedZ then false
    else
      let maxAllowedN : Int := toInt (_maxAllowedInterleaverLength c T)
      if (N : Int) > maxAllowedN then false
      else true

/-- Source: `ParameterChecker::areValidDeriverParameters`.  `F` and `WS` are
`long` locals and `T`, `minT` are `int` locals initialised from the unsigned
arguments; they are converted back at each call of a helper. -/
def areValidDeriverParameters (c : InternalConstants) (sysCeil : Nat → Nat)
    (dataLen payLen maxDBMem : Nat) : Bool :=
  let F : Int := toLong dataLen
  let T : Int := toInt payLen
  let WS : Int := toLong maxDBMem
  if isDataLengthOutOfBounds c (ofInt 64 F) then false
  else if isSymbolSizeOutOfBounds c (ofInt 16 T) then false
  else
    let absolMinWS : Int := toLong (minDecodingBlockSize c sysCeil)
    if WS < absolMinWS then false
    else
      let minT : Int := toInt (_minAllowedSymbolSize c (ofInt 64 F))
      if T < minT then false
      else
        let minWS : Int :=
          toLong (_minAllowedDecodingBlockSize c sysCeil (ofInt 64 F) (ofInt 16 T))
        if WS < minWS then false
        else true

/-- Source: `ParameterChecker::maxAllowedDataLength(uint16_t, uint64_t)`. -/
def maxAllowedDataLengthWS (c : InternalConstants) (sysCeil sysFloor : Nat → Nat)
    (payLen maxDBMem : Nat) : Except String Nat := do
  _checkPayloadLengthOutOfBounds c payLen
  _checkDecodingBlockSizeOutOfBounds c sysCeil maxDBMem
  if maxDBMem < payLen then
    throw "maximum decoding block size must be at least equal to the payload length"
  return _maxAllowedDataLengthWS c sysFloor payLen maxDBMem

/-! ## ParameterChecker.cpp: FEC payload identifiers -/

/-- Source: `ParameterChecker::minSourceBlockNumber`. -/
def minSourceBlockNumber (c : InternalConstants) : Nat := u8 c.SBN_min

/-- Source: `ParameterChecker::maxSourceBlockNumber`. -/
def maxSourceBlockNumber (c : InternalConstants) : Nat := u8 c.SBN_max

/-- Source: `ParameterChecker::isSourceBlockNumberOutOfBounds`. -/
def isSourceBlockNumberOutOfBounds (c : InternalConstants) (sbn : Nat) : Bool :=
  !(decide (minSourceBlockNumber c ≤ sbn) && decide (sbn ≤ maxSourceBlockNumber c))

/-- Source: `ParameterChecker::minEncodingSymbolID`. -/
def minEncodingSymbolID (c : InternalConstants) : Nat := u32 c.ESI_min

/-- Source: `ParameterChecker::maxEncodingSymbolID`. -/
def maxEncodingSymbolID (c : InternalConstants) : Nat := u32 c.ESI_max

/-- Source: `ParameterChecker::isEncodingSymbolIDOutOfBounds`. -/
def isEncodingSymbolIDOutOfBounds (c : InternalConstants) (esi : Nat) : Bool :=
  !(decide (minEncodingSymbolID c ≤ esi) && decide (esi ≤ maxEncodingSymbolID c))

/-- Source: `ParameterChecker::isValidFECPayloadID`; the lower bound on `sbn`
is the constant `SBN_min` itself, not its accessor. -/
def isValidFECPayloadID (c : InternalConstants) (sbn esi numSrcBs : Nat) :
    Except String Bool := do
  _checkNumSourceBlocksOutOfBounds c numSrcBs
  if decide (sbn < c.SBN_min) || decide (sbn ≥ numSrcBs) then
    return false
  else if isEncodingSymbolIDOutOfBounds c esi then
    return false
  else
    return true

/-! ## The FEC parameters value object -/

/-- Source: the two data members of `FECParameters` (`FECParameters.h`):
`uint64_t commonFecOTI` and `uint32_t schemeSpecFecOTI`. -/
structure FECParameters where
  commonFecOTI : Nat
  schemeSpecFecOTI : Nat

/-- Modelled from the spec: `FECParameters::dataLength` (`FECParameters.cpp` is
not among the sources); section 6: the high-order 40 bits of the common OTI. -/
def FECParameters.dataLength (p : FECParameters) : Nat := u64 (p.commonFecOTI / 2 ^ 24)

/-- Modelled from the spec: `FECParameters::symbolSize` (`FECParameters.cpp` is
not among the sources); section 6: the low-order 16 bits of the common OTI. -/
def FECParameters.symbolSize (p : FECParameters) : Nat := u16 p.commonFecOTI

/-- Modelled from the spec: `FECParameters::numberOfSourceBlocks`; section 6:
the high-order 8 bits of the scheme-specific OTI. -/
def FECParameters.numberOfSourceBlocks (p : FECParameters) : Nat :=
  u8 (p.schemeSpecFecOTI / 2 ^ 24)

/-- Modelled from the spec: `FECParameters::interleaverLength`; section 6: the
16 bits of the scheme-specific OTI that follow the source block count. -/
def FECParameters.interleaverLength (p : FECParameters) : Nat :=
  u16 (p.schemeSpecFecOTI / 2 ^ 8)

/-- Modelled from the spec: `FECParameters::symbolAlignment`; section 6: the
low-order 8 bits of the scheme-specific OTI. -/
def FECParameters.symbolAlignment (p : FECParameters) : Nat := u8 p.schemeSpecFecOTI

/-- Modelled from the spec: `FECParameters::totalSymbols` (`FECParameters.cpp`
is not among the sources).  Section 4.3: it "recomputes `ceil(F/T)` rather than
storing it", through `InternalFunctions::getTotalSymbols`; the header declares
the result as `uint16_t`. -/
def FECParameters.totalSymbols (p : FECParameters) : Nat :=
  u16 (getTotalSymbols p.dataLength p.symbolSize)

/-- Modelled from the spec: `FECParameters::newLocalInstance`
(`FECParameters.cpp` is not among the sources); sections 4.3 and 6: packs the
five values without validating them, `F` above the reserved octet and `T`, and
`Z` above `N` and `Al`. -/
def newLocalInstance (F T Z N Al : Nat) : FECParameters where
  commonFecOTI := u64 (F * 2 ^ 24 + u16 T)
  schemeSpecFecOTI := u32 (u8 Z * 2 ^ 24 + u16 N * 2 ^ 8 + u8 Al)

/-- Modelled from the spec: the validating factory
`FECParameters::newParameters(F, T, Z, N)` (`FECParameters.cpp` is not among
the sources); section 4.3: validates through the composite predicate and packs,
and signals an invalid-parameter failure if the predicate fails. -/
def newParameters (c : InternalConstants) (dataLen symbSize numSrcBs interLen : Nat) :
    Except String FECParameters :=
  if areValidFECParameters c dataLen symbSize numSrcBs interLen then
    .ok (newLocalInstance dataLen symbSize numSrcBs interLen (u8 c.Al))
  else .error "invalid FEC parameters"

/-! ## The predicates in the words of the spec -/

/-- The composite legality predicate as the spec words it (section 4.2), on the
exact total symbol count `Kt = ceil(F / T)`: every parameter within its
absolute bounds, `Kt <= Kt_max`, `max(Z_min, ceil(Kt / K_max)) <= Z`,
`Z <= min(Z_max, Kt)` and `N <= min(N_max, T / Al)`. -/
def specValidFECParameters (c : InternalConstants) (F T Z N : Nat) : Prop :=
  (c.F_min ≤ F ∧ F ≤ c.F_max) ∧ (c.T_min ≤ T ∧ T ≤ c.T_max) ∧
  (c.Z_min ≤ Z ∧ Z ≤ c.Z_max) ∧ (c.N_min ≤ N ∧ N ≤ c.N_max) ∧
  ceilDiv F T ≤ c.Kt_max ∧
  max c.Z_min (ceilDiv (ceilDiv F T) c.K_max) ≤ Z ∧
  Z ≤ min c.Z_max (ceilDiv F T) ∧
  N ≤ min c.N_max (T / c.Al)

instance (c : InternalConstants) (F T Z N : Nat) :
    Decidable (specValidFECParameters c F T Z N) := by
  unfold specValidFECParameters; infer_instance

/-- The derivation-input legality predicate as the spec words it (section
4.2): `F` and `T` within their absolute bounds, `WS` at least the absolute
minimum decoding block size, `T` at least `max(T_min, ceil(F / Kt_max))`, and
`WS` at least the minimum decoding block size for `F` and `T`; all comparisons
are on the unsigned values of the arguments. -/
def specValidDeriverParameters (c : InternalConstants) (sysCeil : Nat → Nat)
    (F T WS : Nat) : Prop :=
  (c.F_min ≤ F ∧ F ≤ c.F_max) ∧ (c.T_min ≤ T ∧ T ≤ c.T_max) ∧
  minDecodingBlockSize c sysCeil ≤ WS ∧
  max c.T_min (ceilDiv F c.Kt_max) ≤ T ∧
  _minAllowedDecodingBlockSize c sysCeil F T ≤ WS

instance (c : InternalConstants) (sysCeil : Nat → Nat) (F T WS : Nat) :
    Decidable (specValidDeriverParameters c sysCeil F T WS) := by
  unfold specValidDeriverParameters; infer_instance

/-- The spec's `maxSourceSymbolsForMemory(WS, T, Al, n)` (section 4.1):
`floorToSystematic(min(K_max, floor(WS / subSymbolSize(T, Al, n))))`, the cap
applied to the exact quotient. -/
def specKL (c : InternalConstants) (sysFloor : Nat → Nat) (WS T Al n : Nat) : Nat :=
  sysFloor (min c.K_max (WS / subSymbolSize T Al n))

/-! ## The embedding that tracks division by zero

The definitions above use the total division of Lean.  The definitions of this
section follow the same source functions statement by statement and stop with
`Fault.divisionByZero` at the first division whose divisor is zero; an
`std::invalid_argument` is `Fault.invalidArgument`.  The operations of
`ParameterChecker` that are not repeated here (the accessors of the absolute
bounds, the `is...OutOfBounds` predicates, `maxAllowedDataLength(uint16_t)`,
`isValidFECPayloadID`, `numRepairSymbolsPerBlock`) contain no division. -/

/-- The two ways in which an operation ends without a value. -/
inductive Fault where
  | invalidArgument (msg : String)
  | divisionByZero

/-- An `std::invalid_argument` of the total embedding, as a fault. -/
def liftExcept {α : Type} (r : Except String α) : Except Fault α :=
  match r with
  | .ok a => .ok a
  | .error msg => .error (.invalidArgument msg)

/-- Constants that meet every precondition on the constants that the division
safety claim lists (`T_min`, `Al`, `K_max`, `Kt_max`, `Z_max` at least `1`):
those of `raptorQ` with the alignment `Al = 2`, while the largest symbol size
`65535` is not a multiple of the alignment. -/
def unalignedConstants : InternalConstants :=
  { raptorQ with Al := 2, T_min := 2 }

namespace Checked

/-- The quotient `a / b` of the source, with its fault. -/
def div (a b : Nat) : Except Fault Nat :=
  if b = 0 then .error .divisionByZero else .ok (a / b)

/-- Modelled from the spec: the ceiling-division helper (not among the
sources), which divides by its second argument. -/
def ceilDiv (num den : Nat) : Except Fault Nat :=
  if den = 0 then .error .divisionByZero else .ok (Orq.ceilDiv num den)

/-- Source: `InternalFunctions::getPossibleTotalSymbols`. -/
def getPossibleTotalSymbols (F T : Nat) : Except Fault Nat := do
  let q ← ceilDiv F T
  return u64 q

/-- Source: `InternalFunctions::getTotalSymbols`. -/
def getTotalSymbols (F T : Nat) : Except Fault Nat := do
  let q ← ceilDiv F T
  return u64 q

/-- Source: `InternalFunctions::topInterleaverLength`. -/
def topInterleaverLength (T : Nat) : Except Fault Nat := do
  let SStimesAl := T
  let q ← div T SStimesAl
  return u16 q

/-- Source: `InternalFunctions::subSymbolSize`. -/
def subSymbolSize (T Al n : Nat) : Except Fault Nat := do
  let q ← ceilDiv T (Al * n)
  return u16 (Al * q)

/-- Source: `InternalFunctions::KL`. -/
def KL (c : InternalConstants) (sysFloor : Nat → Nat) (WS T Al n : Nat) :
    Except Fault Nat := do
  let s ← subSymbolSize T Al n
  let q ← div WS s
  let K_upper_bound := u16 (min (u16 c.K_max) (u16 q))
  return u16 (sysFloor K_upper_bound)

/-- Source: `InternalFunctions::minWS`. -/
def minWS (sysCeil : Nat → Nat) (Kprime T Al n : Nat) : Except Fault Nat := do
  let s ← subSymbolSize T Al n
  return u64 (u64 (sysCeil Kprime) * s)

/-- Source: `ParameterChecker::_minAllowedSymbolSize`. -/
def _minAllowedSymbolSize (c : InternalConstants) (F : Nat) : Except Fault Nat := do
  let q ← ceilDiv F c.Kt_max
  return max (minSymbolSize c) (u16 q)

/-- Source: `ParameterChecker::_minAllowedNumSourceBlocks`. -/
def _minAllowedNumSourceBlocks (c : InternalConstants) (Kt : Nat) : Except Fault Nat := do
  let q ← ceilDiv Kt c.K_max
  return max (minNumSourceBlocks c) (u16 q)

/-- Source: `ParameterChecker::_maxAllowedInterleaverLength`. -/
def _maxAllowedInterleaverLength (c : InternalConstants) (T : Nat) : Except Fault Nat := do
  let q ← div T c.Al
  return min (maxInterleaverLength c) (u16 q)

/-- Source: `ParameterChecker::_minAllowedDecodingBlockSize`. -/
def _minAllowedDecodingBlockSize (c : InternalConstants) (sysCeil : Nat → Nat)
    (F T : Nat) : Except Fault Nat := do
  let Kt : Int := toInt (← getTotalSymbols F T)
  let Kprime : Int := max 10 (toInt (← ceilDiv Kt.toNat c.Z_max))
  minWS sysCeil (ofInt 16 Kprime) T (u8 c.Al) (← topInterleaverLength T)

/-- Source: `ParameterChecker::_maxAllowedDataLength(uint16_t, uint64_t)`. -/
def _maxAllowedDataLengthWS (c : InternalConstants) (sysFloor : Nat → Nat)
    (T WS : Nat) : Except Fault Nat := do
  let boundFromT : Int := toLong (_maxAllowedDataLength c T)
  let KL : Int := toInt (← KL c sysFloor WS T (u8 c.Al) (← topInterleaverLength T))
  let boundFromWS : Int := toLong (toLong (toLong c.Z_max * KL) * T)
  return ofInt 64 (min boundFromT boundFromWS)

/-- Source: `ParameterChecker::_areDataLengthAndSymbolSizeOutOfBounds`. -/
def _areDataLengthAndSymbolSizeOutOfBounds (c : InternalConstants) (F T : Nat) :
    Except Fault Bool := do
  return decide ((← getPossibleTotalSymbols F T) > c.Kt_max)

/-- Source: `ParameterChecker::_checkDataLengthAndSymbolSizeOutOfBounds`. -/
def _checkDataLengthAndSymbolSizeOutOfBounds (c : InternalConstants) (F T : Nat) :
    Except Fault Unit := do
  if ← _areDataLengthAndSymbolSizeOutOfBounds c F T then
    throw (.invalidArgument "source data length and symbol size are out of bounds in unison")

/-- Source: `ParameterChecker::_checkDataLengthAndPayloadLengthOutOfBounds`. -/
def _checkDataLengthAndPayloadLengthOutOfBounds (c : InternalConstants) (F P : Nat) :
    Except Fault Unit := do
  if ← _areDataLengthAndSymbolSizeOutOfBounds c F P then
    throw (.invalidArgument
      "source data length and payload length are out of bounds in unison")

/-- Source: `ParameterChecker::minDecodingBlockSize`. -/
def minDecodingBlockSize (c : InternalConstants) (sysCeil : Nat → Nat) : Except Fault Nat :=
  _minAllowedDecodingBlockSize c sysCeil (minDataLength c) (minSymbolSize c)

/-- Source: `ParameterChecker::_checkDecodingBlockSizeOutOfBounds`. -/
def _checkDecodingBlockSizeOutOfBounds (c : InternalConstants) (sysCeil : Nat → Nat)
    (WS : Nat) : Except Fault Unit := do
  if WS < (← minDecodingBlockSize c sysCeil) then
    throw (.invalidArgument "maximum decoding block size is out of bounds")

/-- Source: `ParameterChecker::minAllowedSymbolSize`. -/
def minAllowedSymbolSize (c : InternalConstants) (dataLen : Nat) : Except Fault Nat := do
  liftExcept (_checkDataLengthOutOfBounds c dataLen)
  _minAllowedSymbolSize c dataLen

/-- Source: `ParameterChecker::minAllowedPayloadLength`. -/
def minAllowedPayloadLength (c : InternalConstants) (dataLen : Nat) : Except Fault Nat :=
  minAllowedSymbolSize c dataLen

/-- Source: `ParameterChecker::minAllowedNumSourceBlocks`. -/
def minAllowedNumSourceBlocks (c : InternalConstants) (dataLen symbSize : Nat) :
    Except Fault Nat := do
  liftExcept (_checkDataLengthOutOfBounds c dataLen)
  liftExcept (_checkSymbolSizeOutOfBounds c symbSize)
  _checkDataLengthAndSymbolSizeOutOfBounds c dataLen symbSize
  let Kt := u32 (← getTotalSymbols dataLen symbSize)
  return u8 (← _minAllowedNumSourceBlocks c (u16 Kt))

/-- Source: `ParameterChecker::maxAllowedNumSourceBlocks`. -/
def maxAllowedNumSourceBlocks (c : InternalConstants) (dataLen symbSize : Nat) :
    Except Fault Nat := do
  liftExcept (_checkDataLengthOutOfBounds c dataLen)
  liftExcept (_checkSymbolSizeOutOfBounds c symbSize)
  _checkDataLengthAndSymbolSizeOutOfBounds c dataLen symbSize
  let Kt := u16 (← getTotalSymbols dataLen symbSize)
  return u8 (_maxAllowedNumSourceBlocks c Kt)

/-- Source: `ParameterChecker::maxAllowedInterleaverLength`. -/
def maxAllowedInterleaverLength (c : InternalConstants) (symbSize : Nat) :
    Except Fault Nat := do
  liftExcept (_checkSymbolSizeOutOfBounds c symbSize)
  _maxAllowedInterleaverLength c symbSize

/-- Source: `ParameterChecker::minAllowedDecodingBlockSize`. -/
def minAllowedDecodingBlockSize (c : InternalConstants) (sysCeil : Nat → Nat)
    (dataLen payLen : Nat) : Except Fault Nat := do
  liftExcept (_checkDataLengthOutOfBounds c dataLen)
  liftExcept (_checkPayloadLengthOutOfBounds c payLen)
  _checkDataLengthAndPayloadLengthOutOfBounds c dataLen payLen
  _minAllowedDecodingBlockSize c sysCeil dataLen payLen

/-- Source: `ParameterChecker::maxAllowedDataLength(uint16_t, uint64_t)`. -/
def maxAllowedDataLengthWS (c : InternalConstants) (sysCeil sysFloor : Nat → Nat)
    (payLen maxDBMem : Nat) : Except Fault Nat := do
  liftExcept (_checkPayloadLengthOutOfBounds c payLen)
  _checkDecodingBlockSizeOutOfBounds c sysCeil maxDBMem
  if maxDBMem < payLen then
    throw (.invalidArgument
      "maximum decoding block size must be at least equal to the payload length")
  _maxAllowedDataLengthWS c sysFloor payLen maxDBMem

/-- Source: `ParameterChecker::areValidFECParameters`. -/
def areValidFECParameters (c : InternalConstants)
    (dataLen symbSize numSrcBs interLen : Nat) : Except Fault Bool := do
  let F := dataLen
  let T := symbSize
  let Z := numSrcBs
  let N := interLen
  if isDataLengthOutOfBounds c F then return false
  else if isSymbolSizeOutOfBounds c T then return false
  else if isNumSourceBlocksOutOfBounds c Z then return false
  else if isInterleaverLengthOutOfBounds c N then return false
  else if ← _areDataLengthAndSymbolSizeOutOfBounds c F T then return false
  else
    let Kt : Int := toInt (← getTotalSymbols F T)
    let minAllowedZ : Int := toInt (← _minAllowedNumSourceBlocks c (ofInt 16 Kt))
    let maxAllowedZ : Int := toInt (_maxAllowedNumSourceBlocks c (ofInt 16 Kt))
    if (Z : Int) < minAllowedZ || (Z : Int) > maxAllowedZ then return false
    else
      let maxAllowedN : Int := toInt (← _maxAllowedInterleaverLength c T)
      if (N : Int) > maxAllowedN then return false
      else return true

/-- Source: `ParameterChecker::areValidDeriverParameters`. -/
def areValidDeriverParameters (c : InternalConstants) (sysCeil : Nat → Nat)
    (dataLen payLen maxDBMem : Nat) : Except Fault Bool := do
  let F : Int := toLong dataLen
  let T : Int := toInt payLen
  let WS : Int := toLong maxDBMem
  if isDataLengthOutOfBounds c (ofInt 64 F) then return false
  else if isSymbolSizeOutOfBounds c (ofInt 16 T) then return false
  else
    let absolMinWS : Int := toLong (← minDecodingBlockSize c sysCeil)
    if WS < absolMinWS then return false
    else
      let minT : Int := toInt (← _minAllowedSymbolSize c (ofInt 64 F))
      if T < minT then return false
      else
        let minWS : Int :=
          toLong (← _minAllowedDecodingBlockSize c sysCeil (ofInt 64 F) (ofInt 16 T))
        if WS < minWS then return false
        else return true

end Checked

/-! ## Conversions -/

theorem toInt_natCast (n : Nat) (h : n < 2 ^ 31) : toInt (n : Int) = (n : Int) := by
  unfold toInt
  omega

theorem ofInt64_toLong (n : Nat) : ofInt 64 (toLong (n : Int)) = n % 2 ^ 64 := by
  unfold ofInt toLong
  omega

theorem ofInt16_toInt (n : Nat) : ofInt 16 (toInt (n : Int)) = u16 n := by
  unfold ofInt toInt u16
  omega

theorem u16_lt (x : Nat) : u16 x < 2 ^ 16 := by unfold u16; omega
theorem u16_le (x : Nat) : u16 x ≤ x := by unfold u16; exact Nat.mod_le _ _
theorem u64_le (x : Nat) : u64 x ≤ x := by unfold u64; exact Nat.mod_le _ _
theorem u16_of_lt (x : Nat) (h : x < 2 ^ 16) : u16 x = x := by unfold u16; omega
theorem u64_of_lt (x : Nat) (h : x < 2 ^ 64) : u64 x = x := by unfold u64; omega

/-! ## Ceiling division -/

theorem ceilDiv_le_iff (n d q : Nat) (hd : 0 < d) : ceilDiv n d ≤ q ↔ n ≤ q * d := by
  unfold ceilDiv
  rw [← Nat.lt_succ_iff, Nat.div_lt_iff_lt_mul hd, Nat.succ_mul]
  omega

theorem ceilDiv_le_self (n d : Nat) : ceilDiv n d ≤ n := by
  rcases Nat.eq_zero_or_pos d with hd | hd
  · subst hd; simp [ceilDiv]
  · rw [ceilDiv_le_iff n d n hd]; exact Nat.le_mul_of_pos_right n hd

theorem ceilDiv_mono (a b d : Nat) (h : a ≤ b) : ceilDiv a d ≤ ceilDiv b d := by
  unfold ceilDiv
  exact Nat.div_le_div_right (by omega)

/-! ## The composite predicate `areValidFECParameters` -/

theorem _minAllowedNumSourceBlocks_lt (c : InternalConstants) (Kt : Nat) :
    _minAllowedNumSourceBlocks c Kt < 2 ^ 16 := by
  unfold _minAllowedNumSourceBlocks minNumSourceBlocks
  have h1 := u16_lt c.Z_min
  have h2 := u16_lt (ceilDiv Kt c.K_max)
  omega

theorem _maxAllowedNumSourceBlocks_lt (c : InternalConstants) (Kt : Nat) :
    _maxAllowedNumSourceBlocks c Kt < 2 ^ 16 := by
  unfold _maxAllowedNumSourceBlocks maxNumSourceBlocks
  have h1 := u16_lt c.Z_max
  omega

theorem _maxAllowedInterleaverLength_lt (c : InternalConstants) (T : Nat) :
    _maxAllowedInterleaverLength c T < 2 ^ 16 := by
  unfold _maxAllowedInterleaverLength maxInterleaverLength
  have h1 := u16_lt c.N_max
  omega

/-- What `areValidFECParameters` computes, with the conversions of the `int`
locals resolved: the total symbol count reaches the two source block helpers
reduced modulo `2 ^ 16`. -/
theorem areValidFECParameters_eq_true_iff (c : InternalConstants) (F T Z N : Nat) :
    areValidFECParameters c F T Z N = true ↔
      (minDataLength c ≤ F ∧ F ≤ maxDataLength c) ∧
      (minSymbolSize c ≤ T ∧ T ≤ maxSymbolSize c) ∧
      (minNumSourceBlocks c ≤ Z ∧ Z ≤ maxNumSourceBlocks c) ∧
      (minInterleaverLength c ≤ N ∧ N ≤ maxInterleaverLength c) ∧
      getPossibleTotalSymbols F T ≤ c.Kt_max ∧
      _minAllowedNumSourceBlocks c (u16 (getTotalSymbols F T)) ≤ Z ∧
      Z ≤ _maxAllowedNumSourceBlocks c (u16 (getTotalSymbols F T)) ∧
      N ≤ _maxAllowedInterleaverLength c T := by
  have e1 := ofInt16_toInt (getTotalSymbols F T)
  have e2 := toInt_natCast (_minAllowedNumSourceBlocks c (u16 (getTotalSymbols F T))) (by
    have := _minAllowedNumSourceBlocks_lt c (u16 (getTotalSymbols F T)); omega)
  have e3 := toInt_natCast (_maxAllowedNumSourceBlocks c (u16 (getTotalSymbols F T))) (by
    have := _maxAllowedNumSourceBlocks_lt c (u16 (getTotalSymbols F T)); omega)
  have e4 := toInt_natCast (_maxAllowedInterleaverLength c T) (by
    have := _maxAllowedInterleaverLength_lt c T; omega)
  simp only [areValidFECParameters, isDataLengthOutOfBounds, isSymbolSizeOutOfBounds,
    isNumSourceBlocksOutOfBounds, isInterleaverLengthOutOfBounds,
    _areDataLengthAndSymbolSizeOutOfBounds, e1, e2, e3, e4]
  split_ifs <;> simp_all <;> omega

/-- C1: with the RaptorQ constants, a data length of 65537 octets cut into
symbols of one octet (65537 symbols) is accepted with a single source block,
while the predicate of the spec on the exact symbol count rejects it, since it
asks for at least `ceil(65537 / 56403) = 2` blocks.  The helpers that bound `Z`
take the symbol count as a `uint16_t`, so they see `65537 mod 2 ^ 16 = 1`. -/
theorem areValidFECParameters_differs_from_spec :
    areValidFECParameters raptorQ 65537 1 1 1 = true ∧
      ¬ specValidFECParameters raptorQ 65537 1 1 1 ∧
      u16 (getTotalSymbols 65537 1) = 1 := by
  decide

/-- C2: with the RaptorQ constants, `Z = 1` is below the minimum number of
source blocks `max(Z_min, ceil(ceil(F / T) / K_max)) = 256` for `F = 14439168`,
`T = 1`, yet the parameters are accepted, and the single block then holds more
than `K_max` symbols. -/
theorem areValidFECParameters_accepts_too_few_blocks :
    1 < max raptorQ.Z_min (ceilDiv (ceilDiv 14439168 1) raptorQ.K_max) ∧
      areValidFECParameters raptorQ 14439168 1 1 1 = true ∧
      1 * raptorQ.K_max < ceilDiv 14439168 1 := by
  decide

/-- C3: every accepted parameter set has at most as many source blocks as the
exact total symbol count `ceil(F / T)`. -/
theorem areValidFECParameters_numSrcBs_le_totalSymbols (c : InternalConstants)
    (F T Z N : Nat) (h : areValidFECParameters c F T Z N = true) :
    Z ≤ ceilDiv F T := by
  rw [areValidFECParameters_eq_true_iff] at h
  obtain ⟨-, -, -, -, -, -, hZ, -⟩ := h
  have h1 : _maxAllowedNumSourceBlocks c (u16 (getTotalSymbols F T))
      ≤ u16 (getTotalSymbols F T) := by
    unfold _maxAllowedNumSourceBlocks; exact Nat.min_le_right _ _
  have h2 := u16_le (getTotalSymbols F T)
  have h3 : getTotalSymbols F T ≤ ceilDiv F T := u64_le _
  omega

theorem areValidFECParameters_numSrcBs_le_totalSymbols_witness :
    areValidFECParameters raptorQ 3000 1000 3 1 = true ∧ 3 ≤ ceilDiv 3000 1000 :=
  ⟨by decide, areValidFECParameters_numSrcBs_le_totalSymbols raptorQ 3000 1000 3 1 (by decide)⟩

/-- C4: `areValidFECParameters` is false as soon as one of `F`, `T`, `Z`, `N`
is outside its absolute bounds (the values the accessors `minDataLength`,
`maxDataLength`, ... return), whatever the other three are. -/
theorem areValidFECParameters_false_of_out_of_bounds (c : InternalConstants)
    (F T Z N : Nat)
    (h : ¬ (minDataLength c ≤ F ∧ F ≤ maxDataLength c) ∨
         ¬ (minSymbolSize c ≤ T ∧ T ≤ maxSymbolSize c) ∨
         ¬ (minNumSourceBlocks c ≤ Z ∧ Z ≤ maxNumSourceBlocks c) ∨
         ¬ (minInterleaverLength c ≤ N ∧ N ≤ maxInterleaverLength c)) :
    areValidFECParameters c F T Z N = false := by
  rw [← Bool.not_eq_true, areValidFECParameters_eq_true_iff]
  rintro ⟨hF, hT, hZ, hN, -⟩
  rcases h with h | h | h | h
  · exact h hF
  · exact h hT
  · exact h hZ
  · exact h hN

theorem areValidFECParameters_false_of_out_of_bounds_witness :
    ¬ (minNumSourceBlocks raptorQ ≤ 0 ∧ 0 ≤ maxNumSourceBlocks raptorQ) ∧
      areValidFECParameters raptorQ 100 1 0 1 = false :=
  ⟨by decide,
    areValidFECParameters_false_of_out_of_bounds raptorQ 100 1 0 1
      (Or.inr (Or.inr (Or.inl (by decide))))⟩

theorem WellTyped.accessors (c : InternalConstants) (hc : c.WellTyped) :
    minDataLength c = c.F_min ∧ maxDataLength c = c.F_max ∧
    minSymbolSize c = c.T_min ∧ maxSymbolSize c = c.T_max ∧
    minNumSourceBlocks c = c.Z_min ∧ maxNumSourceBlocks c = c.Z_max ∧
    minInterleaverLength c = c.N_min ∧ maxInterleaverLength c = c.N_max := by
  obtain ⟨h1, h2, h3, h4, h5, h6, h7, h8, -⟩ := hc
  refine ⟨u64_of_lt _ h1, u64_of_lt _ h2, u16_of_lt _ h3, u16_of_lt _ h4,
    u16_of_lt _ h5, u16_of_lt _ h6, u16_of_lt _ h7, u16_of_lt _ h8⟩

theorem getTotalSymbols_eq (F T : Nat) (hF : F < 2 ^ 64) :
    getTotalSymbols F T = ceilDiv F T := by
  unfold getTotalSymbols
  exact u64_of_lt _ (lt_of_le_of_lt (ceilDiv_le_self F T) hF)

theorem getPossibleTotalSymbols_eq (F T : Nat) (hF : F < 2 ^ 64) :
    getPossibleTotalSymbols F T = ceilDiv F T := by
  unfold getPossibleTotalSymbols
  exact u64_of_lt _ (lt_of_le_of_lt (ceilDiv_le_self F T) hF)

/-- When the largest total symbol count fits 16 bits, the code and the
predicate of the spec agree on every input. -/
theorem areValidFECParameters_iff_spec_of_Kt_max_lt (c : InternalConstants)
    (hc : c.WellTyped) (hKt : c.Kt_max < 2 ^ 16) (F T Z N : Nat) :
    areValidFECParameters c F T Z N = true ↔ specValidFECParameters c F T Z N := by
  obtain ⟨a1, a2, a3, a4, a5, a6, a7, a8⟩ := WellTyped.accessors c hc
  rw [areValidFECParameters_eq_true_iff, a1, a2, a3, a4, a5, a6, a7, a8]
  unfold specValidFECParameters
  by_cases hF : F ≤ c.F_max
  swap
  · constructor <;> rintro ⟨⟨-, h⟩, -⟩ <;> exact absurd h hF
  have hF64 : F < 2 ^ 64 := lt_of_le_of_lt hF hc.2.1
  rw [getTotalSymbols_eq F T hF64, getPossibleTotalSymbols_eq F T hF64]
  by_cases hT : T ≤ c.T_max
  swap
  · constructor <;> rintro ⟨-, ⟨-, h⟩, -⟩ <;> exact absurd h hT
  by_cases hK : ceilDiv F T ≤ c.Kt_max
  swap
  · constructor <;> rintro ⟨-, -, -, -, h, -⟩ <;> exact absurd h hK
  have hT16 : T < 2 ^ 16 := lt_of_le_of_lt hT hc.2.2.2.1
  have e1 : u16 (ceilDiv F T) = ceilDiv F T := u16_of_lt _ (by omega)
  have e2 : u16 (ceilDiv (ceilDiv F T) c.K_max) = ceilDiv (ceilDiv F T) c.K_max :=
    u16_of_lt _ (by have := ceilDiv_le_self (ceilDiv F T) c.K_max; omega)
  have e3 : u16 (T / c.Al) = T / c.Al :=
    u16_of_lt _ (lt_of_le_of_lt (Nat.div_le_self T c.Al) hT16)
  simp only [_minAllowedNumSourceBlocks, _maxAllowedNumSourceBlocks,
    _maxAllowedInterleaverLength, a5, a6, a8, e1, e2, e3]

/-! ## The derivation-input predicate `areValidDeriverParameters` -/

theorem toLong_natCast (n : Nat) (h : n < 2 ^ 63) : toLong (n : Int) = (n : Int) := by
  unfold toLong
  omega

theorem toLong_natCast_neg (n : Nat) (h1 : 2 ^ 63 ≤ n) (h2 : n < 2 ^ 64) :
    toLong (n : Int) = (n : Int) - 2 ^ 64 := by
  unfold toLong
  omega

theorem subSymbolSize_lt (T Al n : Nat) : subSymbolSize T Al n < 2 ^ 16 := u16_lt _

theorem minWS_lt (sysCeil : Nat → Nat) (hs : ∀ k, sysCeil k < 2 ^ 47) (K T Al n : Nat) :
    minWS sysCeil K T Al n < 2 ^ 63 := by
  unfold minWS
  have h1 : u64 (sysCeil K) < 2 ^ 47 := lt_of_le_of_lt (u64_le _) (hs K)
  have h2 := subSymbolSize_lt T Al n
  have h3 : u64 (sysCeil K) * subSymbolSize T Al n < 2 ^ 47 * 2 ^ 16 :=
    Nat.mul_lt_mul'' h1 h2
  have h4 := u64_le (u64 (sysCeil K) * subSymbolSize T Al n)
  have h5 : (2 : Nat) ^ 47 * 2 ^ 16 = 2 ^ 63 := by norm_num
  omega

/-- A memory budget of `2 ^ 63` or more is rejected whatever the data length
and the payload length are: the `long` local `WS` is then negative. -/
theorem areValidDeriverParameters_false_of_large (c : InternalConstants)
    (sysCeil : Nat → Nat) (F T WS : Nat) (h1 : 2 ^ 63 ≤ WS) (h2 : WS < 2 ^ 64)
    (hm : minDecodingBlockSize c sysCeil < 2 ^ 63) :
    areValidDeriverParameters c sysCeil F T WS = false := by
  have e1 := toLong_natCast_neg WS h1 h2
  have e2 := toLong_natCast (minDecodingBlockSize c sysCeil) hm
  have h : toLong (WS : Int) < toLong (minDecodingBlockSize c sysCeil : Int) := by
    rw [e1, e2]; omega
  simp only [areValidDeriverParameters]
  split_ifs <;> rfl

/-- For a memory budget below `2 ^ 63` the code agrees with the predicate of
the spec. -/
theorem areValidDeriverParameters_iff_spec_of_lt (c : InternalConstants)
    (hc : c.WellTyped) (sysCeil : Nat → Nat) (hs : ∀ k, sysCeil k < 2 ^ 47)
    (hFmax : ceilDiv c.F_max c.Kt_max < 2 ^ 16)
    (F T WS : Nat) (hF : F < 2 ^ 64) (hT : T < 2 ^ 16) (hWS : WS < 2 ^ 63) :
    areValidDeriverParameters c sysCeil F T WS = true ↔
      specValidDeriverParameters c sysCeil F T WS := by
  obtain ⟨a1, a2, a3, a4, -⟩ := WellTyped.accessors c hc
  have e1 : ofInt 64 (toLong (F : Int)) = F := by rw [ofInt64_toLong]; exact Nat.mod_eq_of_lt hF
  have e2 : ofInt 16 (toInt (T : Int)) = T := by rw [ofInt16_toInt]; exact u16_of_lt _ hT
  have e2b : ofInt 16 (T : Int) = T := by unfold ofInt; omega
  have e3 := toLong_natCast WS hWS
  have e4 := toLong_natCast (minDecodingBlockSize c sysCeil) (minWS_lt sysCeil hs _ _ _ _)
  have e5 := toLong_natCast (_minAllowedDecodingBlockSize c sysCeil F T)
    (minWS_lt sysCeil hs _ _ _ _)
  have e6 := toInt_natCast T (by omega)
  have h7 : _minAllowedSymbolSize c F < 2 ^ 16 := by
    unfold _minAllowedSymbolSize minSymbolSize
    have := u16_lt c.T_min
    have := u16_lt (ceilDiv F c.Kt_max)
    omega
  have e7 := toInt_natCast (_minAllowedSymbolSize c F) (by omega)
  simp only [areValidDeriverParameters, e1, e2, e2b, e3, e4, e5, e6, e7,
    isDataLengthOutOfBounds, isSymbolSizeOutOfBounds, a1, a2, a3, a4]
  unfold specValidDeriverParameters
  by_cases hFb : F ≤ c.F_max
  swap
  · simp [hFb]
  have e8 : u16 (ceilDiv F c.Kt_max) = ceilDiv F c.Kt_max :=
    u16_of_lt _ (lt_of_le_of_lt (ceilDiv_mono F c.F_max c.Kt_max hFb) hFmax)
  have e9 : _minAllowedSymbolSize c F = max c.T_min (ceilDiv F c.Kt_max) := by
    unfold _minAllowedSymbolSize; rw [a3, e8]
  rw [e9]
  clear e1 e2 e2b e3 e4 e5 e6 e7 e8 e9 h7 hs hc hFmax a1 a2 a3 a4
  split_ifs <;> simp_all <;> omega

/-- C5: with the RaptorQ constants, `F = 1`, `T = 1` and the memory budget
`WS = 2 ^ 64 - 1` satisfy every condition of the spec's derivation-input
predicate, and `areValidDeriverParameters` rejects them: the budget is copied
into a `long` local, where it is `-1`, below the absolute minimum `10`. -/
theorem areValidDeriverParameters_rejects_largest_budget :
    specValidDeriverParameters raptorQ (ceilToSystematic sampleSystematic) 1 1
        18446744073709551615 ∧
      18446744073709551615 < 2 ^ 64 ∧
      minDecodingBlockSize raptorQ (ceilToSystematic sampleSystematic) = 10 ∧
      toLong (18446744073709551615 : Nat) = -1 ∧
      areValidDeriverParameters raptorQ (ceilToSystematic sampleSystematic) 1 1
        18446744073709551615 = false := by
  decide

/-! ## `InternalFunctions::KL` -/

/-- While the quotient `WS / subSymbolSize(T, Al, n)` fits 16 bits, `KL` is the
function of the spec. -/
theorem KL_eq_specKL_of_lt (c : InternalConstants) (sysFloor : Nat → Nat)
    (hK : c.K_max < 2 ^ 16) (hf : ∀ k, sysFloor k < 2 ^ 16) (WS T Al n : Nat)
    (hq : WS / subSymbolSize T Al n < 2 ^ 16) :
    KL c sysFloor WS T Al n = specKL c sysFloor WS T Al n := by
  unfold KL specKL K_upper_bound
  rw [u16_of_lt _ hK, u16_of_lt _ hq, u16_of_lt _ (hf _)]
  congr 1
  exact u16_of_lt _ (lt_of_le_of_lt (Nat.min_le_left _ _) hK)

/-- C6: with the RaptorQ constants, symbols of 1024 octets and a memory budget
of 67119104 octets, the sub-symbol size is 1024 and the exact quotient is
65546.  The spec caps it at `K_max` and rounds 56403 down to a supported value;
the code narrows the quotient to 16 bits first, which leaves 10, and returns
the floor of 10. -/
theorem KL_narrows_quotient_before_cap :
    subSymbolSize 1024 1 1 = 1024 ∧
      67119104 / subSymbolSize 1024 1 1 = 65546 ∧
      K_upper_bound raptorQ 67119104 1024 1 1 = 10 ∧
      KL raptorQ (floorToSystematic sampleSystematic) 67119104 1024 1 1 = 10 ∧
      specKL raptorQ (floorToSystematic sampleSystematic) 67119104 1024 1 1 = 56403 := by
  decide

/-! ## The checked accessors -/

theorem _checkDataLengthOutOfBounds_eq_ok (c : InternalConstants) (F : Nat)
    (h : minDataLength c ≤ F ∧ F ≤ maxDataLength c) :
    _checkDataLengthOutOfBounds c F = .ok () := by
  simp [_checkDataLengthOutOfBounds, isDataLengthOutOfBounds, h.1, h.2]

theorem _checkSymbolSizeOutOfBounds_eq_ok (c : InternalConstants) (T : Nat)
    (h : minSymbolSize c ≤ T ∧ T ≤ maxSymbolSize c) :
    _checkSymbolSizeOutOfBounds c T = .ok () := by
  simp [_checkSymbolSizeOutOfBounds, isSymbolSizeOutOfBounds, h.1, h.2]

theorem _checkDataLengthOutOfBounds_eq_error (c : InternalConstants) (F : Nat)
    (h : ¬ (minDataLength c ≤ F ∧ F ≤ maxDataLength c)) :
    _checkDataLengthOutOfBounds c F = .error "source data length is out of bounds" := by
  have : isDataLengthOutOfBounds c F = true := by
    simp only [isDataLengthOutOfBounds, Bool.not_eq_true', Bool.and_eq_false_imp,
      decide_eq_true_eq, decide_eq_false_iff_not]
    tauto
  simp [_checkDataLengthOutOfBounds, this]

theorem _checkSymbolSizeOutOfBounds_eq_error (c : InternalConstants) (T : Nat)
    (h : ¬ (minSymbolSize c ≤ T ∧ T ≤ maxSymbolSize c)) :
    _checkSymbolSizeOutOfBounds c T = .error "symbol size is out of bounds" := by
  have : isSymbolSizeOutOfBounds c T = true := by
    simp only [isSymbolSizeOutOfBounds, Bool.not_eq_true', Bool.and_eq_false_imp,
      decide_eq_true_eq, decide_eq_false_iff_not]
    tauto
  simp [_checkSymbolSizeOutOfBounds, this]

/-- The public `minAllowedNumSourceBlocks` signals exactly when `F` or `T` is
out of bounds or the possible total symbol count exceeds `Kt_max`. -/
theorem minAllowedNumSourceBlocks_error_iff (c : InternalConstants) (F T : Nat) :
    (∃ e, minAllowedNumSourceBlocks c F T = .error e) ↔
      (¬ (minDataLength c ≤ F ∧ F ≤ maxDataLength c) ∨
       ¬ (minSymbolSize c ≤ T ∧ T ≤ maxSymbolSize c) ∨
       c.Kt_max < getPossibleTotalSymbols F T) := by
  unfold minAllowedNumSourceBlocks
  by_cases hF : minDataLength c ≤ F ∧ F ≤ maxDataLength c
  swap
  · rw [_checkDataLengthOutOfBounds_eq_error c F hF]
    simp [bind, Except.bind, hF]
  rw [_checkDataLengthOutOfBounds_eq_ok c F hF]
  by_cases hT : minSymbolSize c ≤ T ∧ T ≤ maxSymbolSize c
  swap
  · rw [_checkSymbolSizeOutOfBounds_eq_error c T hT]
    simp [bind, Except.bind, hT]
  rw [_checkSymbolSizeOutOfBounds_eq_ok c T hT]
  by_cases hK : c.Kt_max < getPossibleTotalSymbols F T
  · simp [bind, Except.bind, _checkDataLengthAndSymbolSizeOutOfBounds,
      _areDataLengthAndSymbolSizeOutOfBounds, hK]
  · simp [bind, Except.bind, _checkDataLengthAndSymbolSizeOutOfBounds,
      _areDataLengthAndSymbolSizeOutOfBounds, hK, hF, hT, pure, Except.pure]

/-- C7: with the RaptorQ constants, `F = 65537` and `T = 1` are within their
bounds and give 65537 symbols, at most `Kt_max`; the spec's maximum number of
source blocks is `min(Z_max, 65537) = 256`, and the public
`maxAllowedNumSourceBlocks` returns 1, the symbol count narrowed to 16 bits. -/
theorem maxAllowedNumSourceBlocks_narrows_total_symbols :
    (raptorQ.F_min ≤ 65537 ∧ 65537 ≤ raptorQ.F_max) ∧
      (raptorQ.T_min ≤ 1 ∧ 1 ≤ raptorQ.T_max) ∧
      ceilDiv 65537 1 ≤ raptorQ.Kt_max ∧
      min (maxNumSourceBlocks raptorQ) (ceilDiv 65537 1) = 256 ∧
      maxAllowedNumSourceBlocks raptorQ 65537 1 = .ok 1 :=
  ⟨by decide, by decide, by decide, by decide, rfl⟩

/-- C8: with the RaptorQ constants, `F = 7000000` and `T = 100` are within
their bounds and give 70000 symbols; the spec's minimum number of source
blocks is `max(Z_min, ceil(70000 / 56403)) = 2`, and the public
`minAllowedNumSourceBlocks` returns 1, computed on `70000 mod 2 ^ 16 = 4464`. -/
theorem minAllowedNumSourceBlocks_narrows_total_symbols :
    (raptorQ.F_min ≤ 7000000 ∧ 7000000 ≤ raptorQ.F_max) ∧
      (raptorQ.T_min ≤ 100 ∧ 100 ≤ raptorQ.T_max) ∧
      ceilDiv 7000000 100 = 70000 ∧ 70000 ≤ raptorQ.Kt_max ∧
      max raptorQ.Z_min (ceilDiv (ceilDiv 7000000 100) raptorQ.K_max) = 2 ∧
      u16 (u32 (getTotalSymbols 7000000 100)) = 4464 ∧
      minAllowedNumSourceBlocks raptorQ 7000000 100 = .ok 1 :=
  ⟨by decide, by decide, by decide, by decide, by decide, by decide, rfl⟩

/-! ## `minAllowedSymbolSize` and `maxAllowedDataLength` -/

theorem _minAllowedSymbolSize_eq (c : InternalConstants) (hc : c.WellTyped)
    (hFmax : ceilDiv c.F_max c.Kt_max < 2 ^ 16) (F : Nat) (hF : F ≤ c.F_max) :
    _minAllowedSymbolSize c F = max c.T_min (ceilDiv F c.Kt_max) := by
  obtain ⟨-, -, a3, -⟩ := WellTyped.accessors c hc
  unfold _minAllowedSymbolSize
  rw [a3, u16_of_lt _ (lt_of_le_of_lt (ceilDiv_mono F c.F_max c.Kt_max hF) hFmax)]

theorem minAllowedSymbolSize_eq_ok (c : InternalConstants) (hc : c.WellTyped)
    (hFmax : ceilDiv c.F_max c.Kt_max < 2 ^ 16) (F : Nat)
    (hF : c.F_min ≤ F ∧ F ≤ c.F_max) :
    minAllowedSymbolSize c F = .ok (max c.T_min (ceilDiv F c.Kt_max)) := by
  obtain ⟨a1, a2, -⟩ := WellTyped.accessors c hc
  unfold minAllowedSymbolSize
  rw [_checkDataLengthOutOfBounds_eq_ok c F (by rw [a1, a2]; exact hF),
    _minAllowedSymbolSize_eq c hc hFmax F hF.2]
  rfl

/-- C9: for scheme constants that fit their types, with `T_min >= 1`,
`Kt_max >= 1`, `ceil(F_max / Kt_max)` below `2 ^ 16` and
`ceil(F_min / Kt_max) <= T_min`: for every `F` in `[F_min, F_max]`,
`minAllowedSymbolSize(F)` returns `max(T_min, ceil(F / Kt_max))` (the 16-bit
narrowing loses nothing); for every `T` in `[T_min, T_max]` the possible total
symbol count is `ceil(F / T)` and `T` is at least that minimum if and only if
the count is at most `Kt_max`; and `minAllowedSymbolSize(F_min) = T_min`. -/
theorem minAllowedSymbolSize_spec (c : InternalConstants) (hc : c.WellTyped)
    (hTmin : 1 ≤ c.T_min) (hKt : 1 ≤ c.Kt_max)
    (hFmax : ceilDiv c.F_max c.Kt_max < 2 ^ 16)
    (hFmin : ceilDiv c.F_min c.Kt_max ≤ c.T_min)
    (F : Nat) (hF : c.F_min ≤ F ∧ F ≤ c.F_max) :
    minAllowedSymbolSize c F = .ok (max c.T_min (ceilDiv F c.Kt_max)) ∧
      (∀ T, c.T_min ≤ T → T ≤ c.T_max →
        getPossibleTotalSymbols F T = ceilDiv F T ∧
        (max c.T_min (ceilDiv F c.Kt_max) ≤ T ↔
          getPossibleTotalSymbols F T ≤ c.Kt_max)) ∧
      minAllowedSymbolSize c c.F_min = .ok c.T_min := by
  refine ⟨minAllowedSymbolSize_eq_ok c hc hFmax F hF, ?_, ?_⟩
  · intro T hT1 _
    have hF64 : F < 2 ^ 64 := lt_of_le_of_lt hF.2 hc.2.1
    have e := getPossibleTotalSymbols_eq F T hF64
    refine ⟨e, ?_⟩
    rw [e, ceilDiv_le_iff F T c.Kt_max (by omega), max_le_iff,
      ceilDiv_le_iff F c.Kt_max T (by omega), Nat.mul_comm]
    exact ⟨fun h => h.2, fun h => ⟨hT1, h⟩⟩
  · rw [minAllowedSymbolSize_eq_ok c hc hFmax c.F_min ⟨le_refl _, le_trans hF.1 hF.2⟩,
      max_eq_left hFmin]

theorem minAllowedSymbolSize_spec_witness :
    (raptorQ.WellTyped ∧ 1 ≤ raptorQ.T_min ∧ 1 ≤ raptorQ.Kt_max ∧
      ceilDiv raptorQ.F_max raptorQ.Kt_max < 2 ^ 16 ∧
      ceilDiv raptorQ.F_min raptorQ.Kt_max ≤ raptorQ.T_min ∧
      (raptorQ.F_min ≤ 28878337 ∧ 28878337 ≤ raptorQ.F_max)) ∧
    (minAllowedSymbolSize raptorQ 28878337 =
        .ok (max raptorQ.T_min (ceilDiv 28878337 raptorQ.Kt_max)) ∧
      (∀ T, raptorQ.T_min ≤ T → T ≤ raptorQ.T_max →
        getPossibleTotalSymbols 28878337 T = ceilDiv 28878337 T ∧
        (max raptorQ.T_min (ceilDiv 28878337 raptorQ.Kt_max) ≤ T ↔
          getPossibleTotalSymbols 28878337 T ≤ raptorQ.Kt_max)) ∧
      minAllowedSymbolSize raptorQ raptorQ.F_min = .ok raptorQ.T_min) :=
  ⟨by decide,
    minAllowedSymbolSize_spec raptorQ (by decide) (by decide) (by decide) (by decide)
      (by decide) 28878337 (by decide)⟩

/-- While the product `T * Kt_max` fits the type in which the source evaluates
it, `maxAllowedDataLength(T)` is `min(F_max, T * Kt_max)` for `T` within its
bounds. -/
theorem maxAllowedDataLength_eq_of_no_wrap (c : InternalConstants) (T : Nat)
    (hT : minSymbolSize c ≤ T ∧ T ≤ maxSymbolSize c)
    (h : T * c.Kt_max < 2 ^ c.Kt_max_bits) (h64 : T * c.Kt_max < 2 ^ 64) :
    maxAllowedDataLength c T = .ok (min (maxDataLength c) (T * c.Kt_max)) := by
  unfold maxAllowedDataLength _maxAllowedDataLength
  rw [_checkSymbolSizeOutOfBounds_eq_ok c T hT, Nat.mod_eq_of_lt h, u64_of_lt _ h64]
  rfl

/-- Outside the bounds of the symbol size `maxAllowedDataLength(T)` signals. -/
theorem maxAllowedDataLength_error (c : InternalConstants) (T : Nat)
    (hT : ¬ (minSymbolSize c ≤ T ∧ T ≤ maxSymbolSize c)) :
    maxAllowedDataLength c T = .error "symbol size is out of bounds" := by
  unfold maxAllowedDataLength
  rw [_checkSymbolSizeOutOfBounds_eq_error c T hT]
  rfl

/-- C10: with the RaptorQ constants and `Kt_max` held in a 32-bit type, the
symbol size `T = 298` is within its bounds and `min(F_max, T * Kt_max)` is
`4302872064`, while `maxAllowedDataLength(298)` returns `7904768`: the product
is reduced modulo `2 ^ 32` before it is widened to 64 bits. -/
theorem maxAllowedDataLength_wraps_product :
    (raptorQ.T_min ≤ 298 ∧ 298 ≤ raptorQ.T_max) ∧
      min raptorQ.F_max (298 * raptorQ.Kt_max) = 4302872064 ∧
      298 * raptorQ.Kt_max - 2 ^ 32 = 7904768 ∧
      maxAllowedDataLength raptorQ 298 = .ok 7904768 :=
  ⟨by decide, by decide, by decide, rfl⟩

/-! ## `InternalFunctions::subSymbolSize` and `getTotalSymbols` -/

theorem subSymbolSize_eq_of_lt (T Al n : Nat) (h : Al * ceilDiv T (Al * n) < 2 ^ 16) :
    subSymbolSize T Al n = Al * ceilDiv T (Al * n) := by
  unfold subSymbolSize
  exact u16_of_lt _ h

theorem le_ceilDiv_mul (n d : Nat) (hd : 0 < d) : n ≤ ceilDiv n d * d :=
  (ceilDiv_le_iff n d (ceilDiv n d) hd).1 (le_refl _)

theorem ceilDiv_antitone (n d e : Nat) (hd : 0 < d) (hde : d ≤ e) :
    ceilDiv n e ≤ ceilDiv n d := by
  rw [ceilDiv_le_iff n e _ (lt_of_lt_of_le hd hde)]
  exact le_trans (le_ceilDiv_mul n d hd) (Nat.mul_le_mul_left _ hde)

/-- For a symbol size of at most `Al * floor(65535 / Al)`, the largest multiple
of the alignment that fits 16 bits, the sub-symbol size does not wrap. -/
theorem subSymbolSize_no_wrap (T Al n : Nat) (hAl : 1 ≤ Al) (hn : 1 ≤ n)
    (hT : T ≤ Al * (65535 / Al)) : Al * ceilDiv T (Al * n) < 2 ^ 16 := by
  have h1 : ceilDiv T (Al * n) ≤ ceilDiv T Al :=
    ceilDiv_antitone T Al (Al * n) hAl (Nat.le_mul_of_pos_right Al hn)
  have h2 : ceilDiv T Al ≤ 65535 / Al := by
    rw [ceilDiv_le_iff T Al _ hAl, Nat.mul_comm]; exact hT
  have h3 : Al * ceilDiv T (Al * n) ≤ Al * (65535 / Al) :=
    Nat.mul_le_mul_left _ (le_trans h1 h2)
  have h4 : Al * (65535 / Al) ≤ 65535 := Nat.mul_div_le 65535 Al
  omega

/-- C11, as stated, fails: for the 16-bit symbol size 65535 with `Al = 2` and
`n = 1` the value `Al * ceil(T / (Al * n))` is 65536, the `uint16_t` result of
`subSymbolSize` is 0, and one sub-symbol does not cover the symbol. -/
theorem subSymbolSize_wraps_at_65535 :
    65535 < 2 ^ 16 ∧ 2 * ceilDiv 65535 (2 * 1) = 65536 ∧
      subSymbolSize 65535 2 1 = 0 ∧ 1 * subSymbolSize 65535 2 1 < 65535 := by
  decide

/-- C11, amended: for `Al >= 1` and `n >= 1`, whenever
`Al * ceil(T / (Al * n))` fits 16 bits, `subSymbolSize(T, Al, n)` returns
exactly that value, a multiple of `Al` that is at least `ceil(T / n)`, and `n`
sub-symbols cover a symbol. -/
theorem subSymbolSize_spec (T Al n : Nat) (hAl : 1 ≤ Al) (hn : 1 ≤ n)
    (h : Al * ceilDiv T (Al * n) < 2 ^ 16) :
    subSymbolSize T Al n = Al * ceilDiv T (Al * n) ∧
      Al ∣ subSymbolSize T Al n ∧
      ceilDiv T n ≤ subSymbolSize T Al n ∧
      T ≤ n * subSymbolSize T Al n := by
  have e := subSymbolSize_eq_of_lt T Al n h
  have hpos : 0 < Al * n := Nat.mul_pos hAl hn
  have hcover : T ≤ Al * ceilDiv T (Al * n) * n := by
    have := le_ceilDiv_mul T (Al * n) hpos
    calc T ≤ ceilDiv T (Al * n) * (Al * n) := this
      _ = Al * ceilDiv T (Al * n) * n := by ring
  refine ⟨e, ?_, ?_, ?_⟩
  · rw [e]; exact Dvd.intro _ rfl
  · rw [e, ceilDiv_le_iff T n _ hn]; exact hcover
  · rw [e, Nat.mul_comm]; exact hcover

theorem subSymbolSize_spec_witness :
    (1 ≤ 4 ∧ 1 ≤ 3 ∧ 4 * ceilDiv 1000 (4 * 3) < 2 ^ 16) ∧
      subSymbolSize 1000 4 3 = 4 * ceilDiv 1000 (4 * 3) ∧
      4 ∣ subSymbolSize 1000 4 3 ∧
      ceilDiv 1000 3 ≤ subSymbolSize 1000 4 3 ∧
      1000 ≤ 3 * subSymbolSize 1000 4 3 :=
  ⟨by decide, subSymbolSize_spec 1000 4 3 (by decide) (by decide) (by decide)⟩

theorem ceilDiv_eq_ite (F T : Nat) (hT : 0 < T) :
    ceilDiv F T = if F % T = 0 then F / T else F / T + 1 := by
  unfold ceilDiv
  have hdm := Nat.div_add_mod F T
  have hlt := Nat.mod_lt F hT
  have e : F + (T - 1) = (F % T + (T - 1)) + T * (F / T) := by omega
  rw [e, Nat.add_mul_div_left _ _ hT]
  split_ifs with h0
  · rw [h0, Nat.zero_add, Nat.div_eq_of_lt (by omega)]; omega
  · have : (F % T + (T - 1)) / T = 1 :=
      Nat.div_eq_of_lt_le (by omega) (by omega)
    omega

/-- C12: for scheme constants that fit their types with `T_min >= 1`, for every
`F` in `[F_min, F_max]` and `T` in `[T_min, T_max]`, `getTotalSymbols(F, T)` is
the ceiling of `F / T`: `F / T` when `T` divides `F` and `floor(F / T) + 1`
otherwise, the least `q` with `F <= q * T`; `getPossibleTotalSymbols(F, T)`
returns the same value. -/
theorem getTotalSymbols_eq_ceil (c : InternalConstants) (hc : c.WellTyped)
    (hT1 : 1 ≤ c.T_min) (F T : Nat) (hF : c.F_min ≤ F ∧ F ≤ c.F_max)
    (hT : c.T_min ≤ T ∧ T ≤ c.T_max) :
    getTotalSymbols F T = (if F % T = 0 then F / T else F / T + 1) ∧
      (∀ q, getTotalSymbols F T ≤ q ↔ F ≤ q * T) ∧
      getPossibleTotalSymbols F T = getTotalSymbols F T := by
  have hF64 : F < 2 ^ 64 := lt_of_le_of_lt hF.2 hc.2.1
  have hTpos : 0 < T := by omega
  rw [getTotalSymbols_eq F T hF64, getPossibleTotalSymbols_eq F T hF64]
  exact ⟨ceilDiv_eq_ite F T hTpos, fun q => ceilDiv_le_iff F T q hTpos, rfl⟩

theorem getTotalSymbols_eq_ceil_witness :
    (raptorQ.WellTyped ∧ 1 ≤ raptorQ.T_min ∧
      (raptorQ.F_min ≤ 3000 ∧ 3000 ≤ raptorQ.F_max) ∧
      (raptorQ.T_min ≤ 1000 ∧ 1000 ≤ raptorQ.T_max)) ∧
    (getTotalSymbols 3000 1000 = (if 3000 % 1000 = 0 then 3000 / 1000 else 3000 / 1000 + 1) ∧
      (∀ q, getTotalSymbols 3000 1000 ≤ q ↔ 3000 ≤ q * 1000) ∧
      getPossibleTotalSymbols 3000 1000 = getTotalSymbols 3000 1000) :=
  ⟨by decide,
    getTotalSymbols_eq_ceil raptorQ (by decide) (by decide) 3000 1000 (by decide) (by decide)⟩

/-! ## The FEC parameters value object -/

theorem FECParameters.totalSymbols_lt (p : FECParameters) : p.totalSymbols < 2 ^ 16 :=
  u16_lt _

/-- C13: with the RaptorQ constants the validating factory accepts `F = 7000000`,
`T = 100`, `Z = 2`, `N = 1`, which the predicate of the spec accepts as well;
the instance unpacks to the same `F` and `T`, whose exact total symbol count is
`ceil(7000000 / 100) = 70000`, and `totalSymbols()`, declared `uint16_t`,
returns `70000 mod 2 ^ 16 = 4464`. -/
theorem totalSymbols_narrows_total_symbols :
    specValidFECParameters raptorQ 7000000 100 2 1 ∧
      areValidFECParameters raptorQ 7000000 100 2 1 = true ∧
      newParameters raptorQ 7000000 100 2 1 = .ok (newLocalInstance 7000000 100 2 1 1) ∧
      (newLocalInstance 7000000 100 2 1 1).dataLength = 7000000 ∧
      (newLocalInstance 7000000 100 2 1 1).symbolSize = 100 ∧
      ceilDiv 7000000 100 = 70000 ∧
      (newLocalInstance 7000000 100 2 1 1).totalSymbols = 4464 :=
  ⟨by decide, by decide, rfl, by decide, by decide, by decide, by decide⟩

/-! ## Monotonicity of the source block bounds -/

/-- C14: on the 16-bit argument domain `_minAllowedNumSourceBlocks` and
`_maxAllowedNumSourceBlocks` are non-decreasing in `Kt`, and
`_maxAllowedNumSourceBlocks(Kt)` never exceeds `Kt`. -/
theorem sourceBlockBounds_monotone (c : InternalConstants) (Kt Kt2 : Nat)
    (hle : Kt ≤ Kt2) (h16 : Kt2 < 2 ^ 16) :
    _minAllowedNumSourceBlocks c Kt ≤ _minAllowedNumSourceBlocks c Kt2 ∧
      _maxAllowedNumSourceBlocks c Kt ≤ _maxAllowedNumSourceBlocks c Kt2 ∧
      _maxAllowedNumSourceBlocks c Kt ≤ Kt ∧
      _maxAllowedNumSourceBlocks c Kt2 ≤ Kt2 := by
  have e1 : u16 (ceilDiv Kt c.K_max) = ceilDiv Kt c.K_max :=
    u16_of_lt _ (by have := ceilDiv_le_self Kt c.K_max; omega)
  have e2 : u16 (ceilDiv Kt2 c.K_max) = ceilDiv Kt2 c.K_max :=
    u16_of_lt _ (by have := ceilDiv_le_self Kt2 c.K_max; omega)
  have h := ceilDiv_mono Kt Kt2 c.K_max hle
  unfold _minAllowedNumSourceBlocks _maxAllowedNumSourceBlocks
  rw [e1, e2]
  omega

theorem sourceBlockBounds_monotone_witness :
    (300 ≤ 60000 ∧ 60000 < 2 ^ 16) ∧
      _minAllowedNumSourceBlocks raptorQ 300 ≤ _minAllowedNumSourceBlocks raptorQ 60000 ∧
      _maxAllowedNumSourceBlocks raptorQ 300 ≤ _maxAllowedNumSourceBlocks raptorQ 60000 ∧
      _maxAllowedNumSourceBlocks raptorQ 300 ≤ 300 ∧
      _maxAllowedNumSourceBlocks raptorQ 60000 ≤ 60000 :=
  ⟨by decide, sourceBlockBounds_monotone raptorQ 300 60000 (by decide) (by decide)⟩

/-! ## The interleaver length -/

/-- C15: for scheme constants that fit their types and `T` in `[T_min, T_max]`,
`maxAllowedInterleaverLength(T)` returns a value that is at most `N_max` and
that is `T / Al` whenever `T / Al <= N_max`; and every `(F, T, Z, N)` accepted
by `areValidFECParameters` satisfies `N * Al <= T`. -/
theorem maxAllowedInterleaverLength_spec (c : InternalConstants) (hc : c.WellTyped)
    (T : Nat) (hT : c.T_min ≤ T ∧ T ≤ c.T_max) :
    (∃ m, maxAllowedInterleaverLength c T = .ok m ∧ m ≤ c.N_max ∧
        (T / c.Al ≤ c.N_max → m = T / c.Al)) ∧
      (∀ F Z N, areValidFECParameters c F T Z N = true → N * c.Al ≤ T) := by
  obtain ⟨-, -, a3, a4, -, -, -, a8⟩ := WellTyped.accessors c hc
  have hT16 : T < 2 ^ 16 := lt_of_le_of_lt hT.2 hc.2.2.2.1
  have e : u16 (T / c.Al) = T / c.Al :=
    u16_of_lt _ (lt_of_le_of_lt (Nat.div_le_self T c.Al) hT16)
  constructor
  · refine ⟨min c.N_max (T / c.Al), ?_, Nat.min_le_left _ _, fun h => Nat.min_eq_right h⟩
    unfold maxAllowedInterleaverLength _maxAllowedInterleaverLength
    rw [_checkSymbolSizeOutOfBounds_eq_ok c T (by rw [a3, a4]; exact hT), a8, e]
    rfl
  · intro F Z N h
    rw [areValidFECParameters_eq_true_iff] at h
    obtain ⟨-, -, -, -, -, -, -, hN⟩ := h
    unfold _maxAllowedInterleaverLength at hN
    rw [e] at hN
    have h1 : N ≤ T / c.Al := le_trans hN (Nat.min_le_right _ _)
    calc N * c.Al ≤ T / c.Al * c.Al := Nat.mul_le_mul_right _ h1
      _ ≤ T := Nat.div_mul_le_self T c.Al

theorem maxAllowedInterleaverLength_spec_witness :
    (raptorQ.WellTyped ∧ raptorQ.T_min ≤ 1000 ∧ 1000 ≤ raptorQ.T_max) ∧
      ((∃ m, maxAllowedInterleaverLength raptorQ 1000 = .ok m ∧ m ≤ raptorQ.N_max ∧
          (1000 / raptorQ.Al ≤ raptorQ.N_max → m = 1000 / raptorQ.Al)) ∧
        (∀ F Z N, areValidFECParameters raptorQ F 1000 Z N = true → N * raptorQ.Al ≤ 1000)) :=
  ⟨by decide, maxAllowedInterleaverLength_spec raptorQ (by decide) 1000 (by decide)⟩

/-! ## FEC payload identifiers -/

theorem _checkNumSourceBlocksOutOfBounds_eq_ok (c : InternalConstants) (Z : Nat)
    (h : minNumSourceBlocks c ≤ Z ∧ Z ≤ maxNumSourceBlocks c) :
    _checkNumSourceBlocksOutOfBounds c Z = .ok () := by
  simp [_checkNumSourceBlocksOutOfBounds, isNumSourceBlocksOutOfBounds, h.1, h.2]

theorem _checkNumSourceBlocksOutOfBounds_eq_error (c : InternalConstants) (Z : Nat)
    (h : ¬ (minNumSourceBlocks c ≤ Z ∧ Z ≤ maxNumSourceBlocks c)) :
    _checkNumSourceBlocksOutOfBounds c Z = .error "number of source blocks is out of bounds" := by
  have : isNumSourceBlocksOutOfBounds c Z = true := by
    simp only [isNumSourceBlocksOutOfBounds, Bool.not_eq_true', Bool.and_eq_false_imp,
      decide_eq_true_eq, decide_eq_false_iff_not]
    tauto
  simp [_checkNumSourceBlocksOutOfBounds, this]

/-- C16: for scheme constants that fit their types, `isValidFECPayloadID(sbn,
esi, Z)` signals exactly when `Z` is outside `[Z_min, Z_max]`; for `Z` inside
the bounds it returns a boolean, true if and only if `SBN_min <= sbn < Z` and
`ESI_min <= esi <= ESI_max`. -/
theorem isValidFECPayloadID_spec (c : InternalConstants) (hc : c.WellTyped)
    (sbn esi Z : Nat) :
    ((∃ e, isValidFECPayloadID c sbn esi Z = .error e) ↔ ¬ (c.Z_min ≤ Z ∧ Z ≤ c.Z_max)) ∧
      ((c.Z_min ≤ Z ∧ Z ≤ c.Z_max) →
        isValidFECPayloadID c sbn esi Z =
          .ok (decide ((c.SBN_min ≤ sbn ∧ sbn < Z) ∧ (c.ESI_min ≤ esi ∧ esi ≤ c.ESI_max)))) := by
  obtain ⟨-, -, -, -, a5, a6, -, -⟩ := WellTyped.accessors c hc
  have b1 : minEncodingSymbolID c = c.ESI_min := by
    unfold minEncodingSymbolID u32; exact Nat.mod_eq_of_lt hc.2.2.2.2.2.2.2.2.2.2.2.2.2.2.1
  have b2 : maxEncodingSymbolID c = c.ESI_max := by
    unfold maxEncodingSymbolID u32; exact Nat.mod_eq_of_lt hc.2.2.2.2.2.2.2.2.2.2.2.2.2.2.2
  have key : (c.Z_min ≤ Z ∧ Z ≤ c.Z_max) →
      isValidFECPayloadID c sbn esi Z =
        .ok (decide ((c.SBN_min ≤ sbn ∧ sbn < Z) ∧ (c.ESI_min ≤ esi ∧ esi ≤ c.ESI_max))) := by
    intro hZ
    unfold isValidFECPayloadID
    rw [_checkNumSourceBlocksOutOfBounds_eq_ok c Z (by rw [a5, a6]; exact hZ)]
    simp only [isEncodingSymbolIDOutOfBounds, b1, b2, bind, Except.bind, pure, Except.pure]
    by_cases h1 : sbn < c.SBN_min <;> by_cases h2 : sbn ≥ Z <;>
      by_cases h3 : c.ESI_min ≤ esi <;> by_cases h4 : esi ≤ c.ESI_max <;>
      simp only [h1, h2, h3, h4, decide_True, decide_False, Bool.or_self, Bool.or_true,
        Bool.or_false, Bool.true_or, Bool.false_or, Bool.and_self, Bool.and_true,
        Bool.and_false, Bool.not_true, Bool.not_false, and_true, and_false, and_self,
        if_true, if_false, Bool.false_eq_true] <;>
      first
        | rfl
        | (congr 1; symm; rw [decide_eq_true_iff]; omega)
        | (congr 1; symm; rw [decide_eq_false_iff_not]; omega)
  refine ⟨?_, key⟩
  by_cases hZ : c.Z_min ≤ Z ∧ Z ≤ c.Z_max
  · rw [key hZ]
    simp [hZ]
  · unfold isValidFECPayloadID
    rw [_checkNumSourceBlocksOutOfBounds_eq_error c Z (by rw [a5, a6]; exact hZ)]
    simp [bind, Except.bind, hZ]

theorem isValidFECPayloadID_spec_witness :
    raptorQ.WellTyped ∧
      (((∃ e, isValidFECPayloadID raptorQ 3 70 5 = .error e) ↔
          ¬ (raptorQ.Z_min ≤ 5 ∧ 5 ≤ raptorQ.Z_max)) ∧
        ((raptorQ.Z_min ≤ 5 ∧ 5 ≤ raptorQ.Z_max) →
          isValidFECPayloadID raptorQ 3 70 5 =
            .ok (decide ((raptorQ.SBN_min ≤ 3 ∧ 3 < 5) ∧
              (raptorQ.ESI_min ≤ 70 ∧ 70 ≤ raptorQ.ESI_max))))) :=
  ⟨by decide, isValidFECPayloadID_spec raptorQ (by decide) 3 70 5⟩

/-! ## `InternalFunctions::topInterleaverLength` -/

/-- C17, as stated, fails: the 16-bit value `T = 0` makes
`topInterleaverLength` divide zero by zero, so it does not evaluate to 1. -/
theorem topInterleaverLength_zero_divides_by_zero :
    0 < 2 ^ 16 ∧ Checked.topInterleaverLength 0 = .error .divisionByZero ∧
      Checked.topInterleaverLength 0 ≠ .ok 1 :=
  ⟨by decide, rfl, fun h => by cases h⟩

/-- C17, amended: for every 16-bit `T` other than zero,
`topInterleaverLength(T)` divides `T` by itself without fault and evaluates
to 1. -/
theorem topInterleaverLength_eq_one (T : Nat) (h1 : 1 ≤ T) (h16 : T < 2 ^ 16) :
    Checked.topInterleaverLength T = .ok 1 ∧ topInterleaverLength T = 1 := by
  have hTT : T / T = 1 := Nat.div_self (by omega)
  constructor
  · have hne : T ≠ 0 := by omega
    simp [Checked.topInterleaverLength, Checked.div, hne, hTT, u16, bind, Except.bind,
      pure, Except.pure]
  · simp [topInterleaverLength, hTT, u16]

theorem topInterleaverLength_eq_one_witness :
    (1 ≤ 1024 ∧ 1024 < 2 ^ 16) ∧
      Checked.topInterleaverLength 1024 = .ok 1 ∧ topInterleaverLength 1024 = 1 :=
  ⟨by decide, topInterleaverLength_eq_one 1024 (by decide) (by decide)⟩

/-! ## The two views of the memory constraint -/

/-- C18: with the RaptorQ constants two inputs are accepted by
`areValidDeriverParameters` although the data length exceeds
`_maxAllowedDataLength(T, WS)`.  For `F = 14439168`, `T = 1`, `WS = 65546` the
quotient `WS / subSymbolSize` is narrowed to `10` inside `KL`, so the bound is
`min(14439168, 256 * 10 * 1) = 2560`.  For `F = 4302872064`, `T = 298`,
`WS = 16808094` the product `T * Kt_max` wraps inside
`_maxAllowedDataLength(T)`, so the bound is `7904768`. -/
theorem areValidDeriverParameters_exceeds_maxAllowedDataLength :
    (areValidDeriverParameters raptorQ (ceilToSystematic sampleSystematic)
        14439168 1 65546 = true ∧
      KL raptorQ (floorToSystematic sampleSystematic) 65546 1 (u8 raptorQ.Al)
        (topInterleaverLength 1) = 10 ∧
      _maxAllowedDataLengthWS raptorQ (floorToSystematic sampleSystematic) 1 65546 = 2560 ∧
      2560 < 14439168) ∧
    (areValidDeriverParameters raptorQ (ceilToSystematic sampleSystematic)
        4302872064 298 16808094 = true ∧
      _maxAllowedDataLength raptorQ 298 = 7904768 ∧
      _maxAllowedDataLengthWS raptorQ (floorToSystematic sampleSystematic) 298 16808094
        = 7904768 ∧
      7904768 < 4302872064) := by
  decide

/-! ## The minimum decoding block size -/

theorem topInterleaverLength_of_pos (T : Nat) (h : 1 ≤ T) : topInterleaverLength T = 1 := by
  have hTT : T / T = 1 := Nat.div_self (by omega)
  simp [topInterleaverLength, hTT, u16]

theorem ofInt16_max_natCast (q : Nat) (hq : q < 2 ^ 16) :
    ofInt 16 (max 10 (toInt (q : Int))) = max 10 q := by
  rw [toInt_natCast q (by omega)]
  unfold ofInt
  omega

/-- The value of `_minAllowedDecodingBlockSize` while no conversion loses
anything: `ceilToSystematic(max(10, ceil(Kt / Z_max)))` sub-symbols of
`Al * ceil(T / Al)` octets, for `Kt = ceil(F / T)`. -/
theorem _minAllowedDecodingBlockSize_eq (c : InternalConstants) (sysCeil : Nat → Nat)
    (hs : ∀ k, sysCeil k < 2 ^ 47) (hAl : c.Al < 2 ^ 8) (F T : Nat) (hF : F < 2 ^ 64)
    (hT : 1 ≤ T) (hKt : ceilDiv F T < 2 ^ 31)
    (hK : ceilDiv (ceilDiv F T) c.Z_max < 2 ^ 16)
    (hsub : c.Al * ceilDiv T c.Al < 2 ^ 16) :
    _minAllowedDecodingBlockSize c sysCeil F T =
      sysCeil (max 10 (ceilDiv (ceilDiv F T) c.Z_max)) * (c.Al * ceilDiv T c.Al) := by
  have e1 : toInt ((getTotalSymbols F T : Nat) : Int) = (ceilDiv F T : Int) := by
    rw [getTotalSymbols_eq F T hF]; exact toInt_natCast _ hKt
  have e2 : u8 c.Al = c.Al := by unfold u8; omega
  have e3 : subSymbolSize T c.Al 1 = c.Al * ceilDiv T c.Al := by
    have := subSymbolSize_eq_of_lt T c.Al 1 (by rw [Nat.mul_one]; exact hsub)
    rw [Nat.mul_one] at this; exact this
  have h1 : sysCeil (max 10 (ceilDiv (ceilDiv F T) c.Z_max)) < 2 ^ 47 := hs _
  have h2 : sysCeil (max 10 (ceilDiv (ceilDiv F T) c.Z_max)) * (c.Al * ceilDiv T c.Al)
      < 2 ^ 47 * 2 ^ 16 := Nat.mul_lt_mul'' h1 hsub
  have h3 : (2 : Nat) ^ 47 * 2 ^ 16 = 2 ^ 63 := by norm_num
  simp only [_minAllowedDecodingBlockSize, e1, Int.toNat_ofNat, ofInt16_max_natCast _ hK,
    topInterleaverLength_of_pos T hT, e2, minWS, e3]
  rw [u64_of_lt (sysCeil (max 10 (ceilDiv (ceilDiv F T) c.Z_max))) (by omega),
    u64_of_lt _ (by omega)]

/-- C19: for scheme constants that fit their types with `T_min >= 1`,
`Z_max >= 1`, `Kt_max < 2 ^ 31`, `ceil(Kt_max / Z_max) < 2 ^ 16`, a sub-symbol
size of the largest symbol that fits 16 bits, and
`ceil(ceil(F_min / T_min) / Z_max) <= 10`, and for a monotone `ceilToSystematic`
with values below `2 ^ 47`: for every `F` in `[F_min, F_max]` and `T` in
`[T_min, T_max]` with `ceil(F / T) <= Kt_max`,
`minDecodingBlockSize() <= _minAllowedDecodingBlockSize(F, T)`, and a budget
`WS` that passes the final test of `areValidDeriverParameters` passes its
absolute-minimum test. -/
theorem minDecodingBlockSize_le (c : InternalConstants) (hc : c.WellTyped)
    (hT1 : 1 ≤ c.T_min) (hZ : 1 ≤ c.Z_max) (hKt : c.Kt_max < 2 ^ 31)
    (hK : ceilDiv c.Kt_max c.Z_max < 2 ^ 16)
    (hsub : c.Al * ceilDiv c.T_max c.Al < 2 ^ 16)
    (hmin : ceilDiv (ceilDiv c.F_min c.T_min) c.Z_max ≤ 10)
    (sysCeil : Nat → Nat) (hmono : Monotone sysCeil) (hs : ∀ k, sysCeil k < 2 ^ 47)
    (F T : Nat) (hF : c.F_min ≤ F ∧ F ≤ c.F_max) (hT : c.T_min ≤ T ∧ T ≤ c.T_max)
    (hFT : ceilDiv F T ≤ c.Kt_max) :
    minDecodingBlockSize c sysCeil ≤ _minAllowedDecodingBlockSize c sysCeil F T ∧
      (∀ WS : Nat,
        ¬ (toLong (WS : Int) < toLong (_minAllowedDecodingBlockSize c sysCeil F T : Int)) →
        ¬ (toLong (WS : Int) < toLong (minDecodingBlockSize c sysCeil : Int))) := by
  obtain ⟨a1, -, a3, -⟩ := WellTyped.accessors c hc
  have hAl : c.Al < 2 ^ 8 := hc.2.2.2.2.2.2.2.2.2.2.2.1
  have hF64 : F < 2 ^ 64 := lt_of_le_of_lt hF.2 hc.2.1
  have hFmin64 : c.F_min < 2 ^ 64 := hc.1
  -- the value at `(F, T)`
  have hsubT : c.Al * ceilDiv T c.Al < 2 ^ 16 :=
    lt_of_le_of_lt (Nat.mul_le_mul_left _ (ceilDiv_mono T c.T_max c.Al hT.2)) hsub
  have hKT : ceilDiv (ceilDiv F T) c.Z_max < 2 ^ 16 :=
    lt_of_le_of_lt (ceilDiv_mono _ _ _ hFT) hK
  have eFT := _minAllowedDecodingBlockSize_eq c sysCeil hs hAl F T hF64 (by omega)
    (by omega) hKT hsubT
  -- the value at `(F_min, T_min)`
  have hsub0 : c.Al * ceilDiv c.T_min c.Al < 2 ^ 16 :=
    lt_of_le_of_lt
      (Nat.mul_le_mul_left _ (ceilDiv_mono c.T_min c.T_max c.Al (le_trans hT.1 hT.2))) hsub
  have hKt0 : ceilDiv c.F_min c.T_min < 2 ^ 31 := by
    have h1 := (ceilDiv_le_iff _ c.Z_max 10 hZ).1 hmin
    have h2 : c.Z_max < 2 ^ 16 := hc.2.2.2.2.2.1
    omega
  have e0 := _minAllowedDecodingBlockSize_eq c sysCeil hs hAl c.F_min c.T_min hFmin64 hT1
    hKt0 (by omega) hsub0
  have hle : minDecodingBlockSize c sysCeil ≤ _minAllowedDecodingBlockSize c sysCeil F T := by
    unfold minDecodingBlockSize
    rw [a1, a3, e0, eFT, max_eq_left hmin]
    exact Nat.mul_le_mul (hmono (le_max_left _ _))
      (Nat.mul_le_mul_left _ (ceilDiv_mono c.T_min T c.Al hT.1))
  refine ⟨hle, ?_⟩
  intro WS h
  have b1 : _minAllowedDecodingBlockSize c sysCeil F T < 2 ^ 63 := minWS_lt sysCeil hs _ _ _ _
  have b0 : minDecodingBlockSize c sysCeil < 2 ^ 63 := minWS_lt sysCeil hs _ _ _ _
  rw [toLong_natCast _ b1] at h
  rw [toLong_natCast _ b0]
  exact fun hlt => h (lt_of_lt_of_le hlt (Int.ofNat_le.2 hle))

theorem minDecodingBlockSize_le_witness :
    (raptorQ.WellTyped ∧ 1 ≤ raptorQ.T_min ∧ 1 ≤ raptorQ.Z_max ∧ raptorQ.Kt_max < 2 ^ 31 ∧
      ceilDiv raptorQ.Kt_max raptorQ.Z_max < 2 ^ 16 ∧
      raptorQ.Al * ceilDiv raptorQ.T_max raptorQ.Al < 2 ^ 16 ∧
      ceilDiv (ceilDiv raptorQ.F_min raptorQ.T_min) raptorQ.Z_max ≤ 10 ∧
      (raptorQ.F_min ≤ 7000000 ∧ 7000000 ≤ raptorQ.F_max) ∧
      (raptorQ.T_min ≤ 100 ∧ 100 ≤ raptorQ.T_max) ∧
      ceilDiv 7000000 100 ≤ raptorQ.Kt_max) ∧
    minDecodingBlockSize raptorQ (fun k => min k 56403) ≤
      _minAllowedDecodingBlockSize raptorQ (fun k => min k 56403) 7000000 100 :=
  ⟨by decide,
    (minDecodingBlockSize_le raptorQ (by decide) (by decide) (by decide) (by decide)
      (by decide) (by decide) (by decide) (fun k => min k 56403)
      (fun _ _ h => min_le_min h (le_refl _))
      (fun _ => lt_of_le_of_lt (min_le_right _ _) (by decide))
      7000000 100 (by decide) (by decide) (by decide)).1⟩

/-! ## Division by zero -/

theorem liftExcept_ne_divisionByZero {α : Type} (r : Except String α) :
    liftExcept r ≠ .error .divisionByZero := by
  cases r <;> simp [liftExcept]

theorem Checked.div_eq_ok (a b : Nat) (hb : b ≠ 0) : Checked.div a b = .ok (a / b) := by
  simp [Checked.div, hb]

theorem Checked.ceilDiv_eq_ok (n d : Nat) (hd : d ≠ 0) :
    Checked.ceilDiv n d = .ok (Orq.ceilDiv n d) := by
  simp [Checked.ceilDiv, hd]

theorem Checked.getTotalSymbols_eq_ok (F T : Nat) (hT : T ≠ 0) :
    Checked.getTotalSymbols F T = .ok (Orq.getTotalSymbols F T) := by
  simp [Checked.getTotalSymbols, Checked.ceilDiv_eq_ok F T hT, Orq.getTotalSymbols,
    bind, Except.bind, pure, Except.pure]

theorem Checked.getPossibleTotalSymbols_eq_ok (F T : Nat) (hT : T ≠ 0) :
    Checked.getPossibleTotalSymbols F T = .ok (Orq.getPossibleTotalSymbols F T) := by
  simp [Checked.getPossibleTotalSymbols, Checked.ceilDiv_eq_ok F T hT,
    Orq.getPossibleTotalSymbols, bind, Except.bind, pure, Except.pure]

theorem Checked.topInterleaverLength_eq_ok (T : Nat) (hT : T ≠ 0) :
    Checked.topInterleaverLength T = .ok (Orq.topInterleaverLength T) := by
  simp [Checked.topInterleaverLength, Checked.div_eq_ok T T hT, Orq.topInterleaverLength,
    bind, Except.bind, pure, Except.pure]

theorem Checked.subSymbolSize_eq_ok (T Al n : Nat) (h : Al * n ≠ 0) :
    Checked.subSymbolSize T Al n = .ok (Orq.subSymbolSize T Al n) := by
  simp only [Checked.subSymbolSize, Checked.ceilDiv_eq_ok T (Al * n) h, Orq.subSymbolSize,
    bind, Except.bind, pure, Except.pure]

theorem Checked.minWS_eq_ok (sysCeil : Nat → Nat) (K T Al n : Nat) (h : Al * n ≠ 0) :
    Checked.minWS sysCeil K T Al n = .ok (Orq.minWS sysCeil K T Al n) := by
  simp only [Checked.minWS, Checked.subSymbolSize_eq_ok T Al n h, Orq.minWS,
    bind, Except.bind, pure, Except.pure]

theorem Checked.KL_eq_ok (c : InternalConstants) (sysFloor : Nat → Nat) (WS T Al n : Nat)
    (h : Al * n ≠ 0) (hs : Orq.subSymbolSize T Al n ≠ 0) :
    Checked.KL c sysFloor WS T Al n = .ok (Orq.KL c sysFloor WS T Al n) := by
  simp only [Checked.KL, Checked.subSymbolSize_eq_ok T Al n h, Checked.div_eq_ok WS _ hs,
    Orq.KL, Orq.K_upper_bound, bind, Except.bind, pure, Except.pure]

theorem Checked._minAllowedSymbolSize_eq_ok (c : InternalConstants) (F : Nat)
    (h : c.Kt_max ≠ 0) :
    Checked._minAllowedSymbolSize c F = .ok (Orq._minAllowedSymbolSize c F) := by
  simp only [Checked._minAllowedSymbolSize, Checked.ceilDiv_eq_ok F _ h,
    Orq._minAllowedSymbolSize, bind, Except.bind, pure, Except.pure]

theorem Checked._minAllowedNumSourceBlocks_eq_ok (c : InternalConstants) (Kt : Nat)
    (h : c.K_max ≠ 0) :
    Checked._minAllowedNumSourceBlocks c Kt = .ok (Orq._minAllowedNumSourceBlocks c Kt) := by
  simp only [Checked._minAllowedNumSourceBlocks, Checked.ceilDiv_eq_ok Kt _ h,
    Orq._minAllowedNumSourceBlocks, bind, Except.bind, pure, Except.pure]

theorem Checked._maxAllowedInterleaverLength_eq_ok (c : InternalConstants) (T : Nat)
    (h : c.Al ≠ 0) :
    Checked._maxAllowedInterleaverLength c T = .ok (Orq._maxAllowedInterleaverLength c T) := by
  simp only [Checked._maxAllowedInterleaverLength, Checked.div_eq_ok T _ h,
    Orq._maxAllowedInterleaverLength, bind, Except.bind, pure, Except.pure]

theorem Checked._areDataLengthAndSymbolSizeOutOfBounds_eq_ok (c : InternalConstants)
    (F T : Nat) (hT : T ≠ 0) :
    Checked._areDataLengthAndSymbolSizeOutOfBounds c F T =
      .ok (Orq._areDataLengthAndSymbolSizeOutOfBounds c F T) := by
  simp only [Checked._areDataLengthAndSymbolSizeOutOfBounds,
    Checked.getPossibleTotalSymbols_eq_ok F T hT, Orq._areDataLengthAndSymbolSizeOutOfBounds,
    bind, Except.bind, pure, Except.pure]

theorem Checked._minAllowedDecodingBlockSize_eq_ok (c : InternalConstants)
    (sysCeil : Nat → Nat) (F T : Nat) (hT : T ≠ 0) (hZ : c.Z_max ≠ 0) (hAl : u8 c.Al ≠ 0) :
    Checked._minAllowedDecodingBlockSize c sysCeil F T =
      .ok (Orq._minAllowedDecodingBlockSize c sysCeil F T) := by
  have h1 : u8 c.Al * Orq.topInterleaverLength T ≠ 0 := by
    rw [topInterleaverLength_of_pos T (by omega)]; omega
  simp only [Checked._minAllowedDecodingBlockSize, Checked.getTotalSymbols_eq_ok F T hT,
    Checked.ceilDiv_eq_ok _ _ hZ, Checked.topInterleaverLength_eq_ok T hT,
    Checked.minWS_eq_ok sysCeil _ T _ _ h1, Orq._minAllowedDecodingBlockSize,
    bind, Except.bind, pure, Except.pure]

theorem Checked._maxAllowedDataLengthWS_eq_ok (c : InternalConstants)
    (sysFloor : Nat → Nat) (T WS : Nat) (hT : T ≠ 0) (hAl : u8 c.Al ≠ 0)
    (hs : Orq.subSymbolSize T (u8 c.Al) 1 ≠ 0) :
    Checked._maxAllowedDataLengthWS c sysFloor T WS =
      .ok (Orq._maxAllowedDataLengthWS c sysFloor T WS) := by
  have e := topInterleaverLength_of_pos T (by omega)
  have h1 : u8 c.Al * Orq.topInterleaverLength T ≠ 0 := by rw [e]; omega
  have hs2 : Orq.subSymbolSize T (u8 c.Al) (Orq.topInterleaverLength T) ≠ 0 := by
    rw [e]; exact hs
  simp only [Checked._maxAllowedDataLengthWS, Checked.topInterleaverLength_eq_ok T hT,
    Checked.KL_eq_ok c sysFloor WS T _ _ h1 hs2, Orq._maxAllowedDataLengthWS,
    bind, Except.bind, pure, Except.pure]

theorem symbolSize_ne_zero_of_in_bounds (c : InternalConstants) (hc : c.WellTyped)
    (hT1 : 1 ≤ c.T_min) (T : Nat) (h : isSymbolSizeOutOfBounds c T = false) : T ≠ 0 := by
  obtain ⟨-, -, a3, -⟩ := WellTyped.accessors c hc
  simp only [isSymbolSizeOutOfBounds, a3, Bool.not_eq_false', Bool.and_eq_true,
    decide_eq_true_eq] at h
  omega

theorem symbolSize_le_max_of_in_bounds (c : InternalConstants) (hc : c.WellTyped)
    (T : Nat) (h : isSymbolSizeOutOfBounds c T = false) : T ≤ c.T_max := by
  obtain ⟨-, -, -, a4, -⟩ := WellTyped.accessors c hc
  simp only [isSymbolSizeOutOfBounds, a4, Bool.not_eq_false', Bool.and_eq_true,
    decide_eq_true_eq] at h
  exact h.2

theorem u8_Al_ne_zero (c : InternalConstants) (hc : c.WellTyped) (hAl : 1 ≤ c.Al) :
    u8 c.Al ≠ 0 := by
  have h : c.Al < 2 ^ 8 := hc.2.2.2.2.2.2.2.2.2.2.2.1
  unfold u8; omega

/-- Within the bounds of the symbol size, and while the sub-symbol size of the
largest symbol fits 16 bits, the sub-symbol size for `n = 1` is not zero. -/
theorem subSymbolSize_ne_zero (c : InternalConstants) (hc : c.WellTyped) (hAl : 1 ≤ c.Al)
    (hsub : c.Al * ceilDiv c.T_max c.Al < 2 ^ 16) (T : Nat) (h1 : 1 ≤ T)
    (h2 : T ≤ c.T_max) : subSymbolSize T (u8 c.Al) 1 ≠ 0 := by
  have hA : c.Al < 2 ^ 8 := hc.2.2.2.2.2.2.2.2.2.2.2.1
  have e2 : u8 c.Al = c.Al := by unfold u8; omega
  have hlt : c.Al * ceilDiv T c.Al < 2 ^ 16 :=
    lt_of_le_of_lt (Nat.mul_le_mul_left _ (ceilDiv_mono T c.T_max c.Al h2)) hsub
  rw [e2, subSymbolSize_eq_of_lt T c.Al 1 (by rw [Nat.mul_one]; exact hlt), Nat.mul_one]
  have hq : 1 ≤ ceilDiv T c.Al := by
    by_contra hcon
    have h0 : ceilDiv T c.Al ≤ 0 := by omega
    rw [ceilDiv_le_iff T c.Al 0 hAl] at h0
    omega
  exact Nat.pos_iff_ne_zero.1 (Nat.mul_pos hAl hq)

theorem Checked.minDecodingBlockSize_eq_ok (c : InternalConstants) (hc : c.WellTyped)
    (hT1 : 1 ≤ c.T_min) (hAl : 1 ≤ c.Al) (hZ : 1 ≤ c.Z_max) (sysCeil : Nat → Nat) :
    Checked.minDecodingBlockSize c sysCeil = .ok (Orq.minDecodingBlockSize c sysCeil) := by
  obtain ⟨-, -, a3, -⟩ := WellTyped.accessors c hc
  unfold Checked.minDecodingBlockSize Orq.minDecodingBlockSize
  exact Checked._minAllowedDecodingBlockSize_eq_ok c sysCeil _ _ (by rw [a3]; omega)
    (by omega) (u8_Al_ne_zero c hc hAl)

theorem Checked.minAllowedSymbolSize_eq_lift (c : InternalConstants) (hKt : 1 ≤ c.Kt_max)
    (F : Nat) :
    Checked.minAllowedSymbolSize c F = liftExcept (Orq.minAllowedSymbolSize c F) := by
  unfold Checked.minAllowedSymbolSize Orq.minAllowedSymbolSize
  rw [Checked._minAllowedSymbolSize_eq_ok c F (by omega)]
  cases _checkDataLengthOutOfBounds c F <;> rfl

theorem Checked.maxAllowedInterleaverLength_eq_lift (c : InternalConstants)
    (hAl : 1 ≤ c.Al) (T : Nat) :
    Checked.maxAllowedInterleaverLength c T =
      liftExcept (Orq.maxAllowedInterleaverLength c T) := by
  unfold Checked.maxAllowedInterleaverLength Orq.maxAllowedInterleaverLength
  rw [Checked._maxAllowedInterleaverLength_eq_ok c T (by omega)]
  cases _checkSymbolSizeOutOfBounds c T <;> rfl

theorem _checkSymbolSizeOutOfBounds_cases (c : InternalConstants) (T : Nat) :
    (isSymbolSizeOutOfBounds c T = false ∧ _checkSymbolSizeOutOfBounds c T = .ok ()) ∨
      (∃ e, _checkSymbolSizeOutOfBounds c T = .error e) := by
  unfold _checkSymbolSizeOutOfBounds
  cases h : isSymbolSizeOutOfBounds c T
  · left; exact ⟨rfl, rfl⟩
  · right; exact ⟨_, rfl⟩

theorem _checkPayloadLengthOutOfBounds_cases (c : InternalConstants) (P : Nat) :
    (isSymbolSizeOutOfBounds c P = false ∧ _checkPayloadLengthOutOfBounds c P = .ok ()) ∨
      (∃ e, _checkPayloadLengthOutOfBounds c P = .error e) := by
  unfold _checkPayloadLengthOutOfBounds
  have e : isPayloadLengthOutOfBounds c P = isSymbolSizeOutOfBounds c P := rfl
  rw [e]
  cases h : isSymbolSizeOutOfBounds c P
  · left; exact ⟨rfl, rfl⟩
  · right; exact ⟨_, rfl⟩

theorem Checked._checkDataLengthAndSymbolSizeOutOfBounds_eq_lift (c : InternalConstants)
    (F T : Nat) (hT : T ≠ 0) :
    Checked._checkDataLengthAndSymbolSizeOutOfBounds c F T =
      liftExcept (Orq._checkDataLengthAndSymbolSizeOutOfBounds c F T) := by
  unfold Checked._checkDataLengthAndSymbolSizeOutOfBounds
    Orq._checkDataLengthAndSymbolSizeOutOfBounds
  rw [Checked._areDataLengthAndSymbolSizeOutOfBounds_eq_ok c F T hT]
  cases Orq._areDataLengthAndSymbolSizeOutOfBounds c F T <;> rfl

theorem Checked._checkDataLengthAndPayloadLengthOutOfBounds_eq_lift
    (c : InternalConstants) (F P : Nat) (hP : P ≠ 0) :
    Checked._checkDataLengthAndPayloadLengthOutOfBounds c F P =
      liftExcept (Orq._checkDataLengthAndPayloadLengthOutOfBounds c F P) := by
  unfold Checked._checkDataLengthAndPayloadLengthOutOfBounds
    Orq._checkDataLengthAndPayloadLengthOutOfBounds
    Orq._areDataLengthAndPayloadLengthOutOfBounds
  rw [Checked._areDataLengthAndSymbolSizeOutOfBounds_eq_ok c F P hP]
  cases Orq._areDataLengthAndSymbolSizeOutOfBounds c F P <;> rfl

theorem Checked.minAllowedNumSourceBlocks_eq_lift (c : InternalConstants)
    (hc : c.WellTyped) (hT1 : 1 ≤ c.T_min) (hK : 1 ≤ c.K_max) (F T : Nat) :
    Checked.minAllowedNumSourceBlocks c F T =
      liftExcept (Orq.minAllowedNumSourceBlocks c F T) := by
  unfold Checked.minAllowedNumSourceBlocks Orq.minAllowedNumSourceBlocks
  cases _checkDataLengthOutOfBounds c F
  · rfl
  rcases _checkSymbolSizeOutOfBounds_cases c T with ⟨hb, h⟩ | ⟨e, h⟩
  swap
  · rw [h]; rfl
  have hT := symbolSize_ne_zero_of_in_bounds c hc hT1 T hb
  rw [h, Checked._checkDataLengthAndSymbolSizeOutOfBounds_eq_lift c F T hT,
    Checked.getTotalSymbols_eq_ok F T hT]
  simp only [Checked._minAllowedNumSourceBlocks_eq_ok c _ (show c.K_max ≠ 0 by omega)]
  cases Orq._checkDataLengthAndSymbolSizeOutOfBounds c F T <;> rfl

theorem Checked.maxAllowedNumSourceBlocks_eq_lift (c : InternalConstants)
    (hc : c.WellTyped) (hT1 : 1 ≤ c.T_min) (F T : Nat) :
    Checked.maxAllowedNumSourceBlocks c F T =
      liftExcept (Orq.maxAllowedNumSourceBlocks c F T) := by
  unfold Checked.maxAllowedNumSourceBlocks Orq.maxAllowedNumSourceBlocks
  cases _checkDataLengthOutOfBounds c F
  · rfl
  rcases _checkSymbolSizeOutOfBounds_cases c T with ⟨hb, h⟩ | ⟨e, h⟩
  swap
  · rw [h]; rfl
  have hT := symbolSize_ne_zero_of_in_bounds c hc hT1 T hb
  rw [h, Checked._checkDataLengthAndSymbolSizeOutOfBounds_eq_lift c F T hT,
    Checked.getTotalSymbols_eq_ok F T hT]
  cases Orq._checkDataLengthAndSymbolSizeOutOfBounds c F T <;> rfl

theorem Checked.minAllowedDecodingBlockSize_eq_lift (c : InternalConstants)
    (hc : c.WellTyped) (hT1 : 1 ≤ c.T_min) (hAl : 1 ≤ c.Al) (hZ : 1 ≤ c.Z_max)
    (sysCeil : Nat → Nat) (F P : Nat) :
    Checked.minAllowedDecodingBlockSize c sysCeil F P =
      liftExcept (Orq.minAllowedDecodingBlockSize c sysCeil F P) := by
  unfold Checked.minAllowedDecodingBlockSize Orq.minAllowedDecodingBlockSize
  cases _checkDataLengthOutOfBounds c F
  · rfl
  rcases _checkPayloadLengthOutOfBounds_cases c P with ⟨hb, h⟩ | ⟨e, h⟩
  swap
  · rw [h]; rfl
  have hP := symbolSize_ne_zero_of_in_bounds c hc hT1 P hb
  rw [h, Checked._checkDataLengthAndPayloadLengthOutOfBounds_eq_lift c F P hP,
    Checked._minAllowedDecodingBlockSize_eq_ok c sysCeil F P hP (by omega)
      (u8_Al_ne_zero c hc hAl)]
  cases Orq._checkDataLengthAndPayloadLengthOutOfBounds c F P <;> rfl

theorem Checked.areValidFECParameters_eq_ok (c : InternalConstants) (hc : c.WellTyped)
    (hT1 : 1 ≤ c.T_min) (hAl : 1 ≤ c.Al) (hK : 1 ≤ c.K_max) (F T Z N : Nat) :
    Checked.areValidFECParameters c F T Z N = .ok (Orq.areValidFECParameters c F T Z N) := by
  unfold Checked.areValidFECParameters Orq.areValidFECParameters
  cases h2 : isSymbolSizeOutOfBounds c T
  swap
  · simp only [h2, ↓reduceIte, pure, Except.pure]
    split_ifs <;> rfl
  have hT := symbolSize_ne_zero_of_in_bounds c hc hT1 T h2
  simp only [Checked._areDataLengthAndSymbolSizeOutOfBounds_eq_ok c F T hT,
    Checked.getTotalSymbols_eq_ok F T hT,
    Checked._minAllowedNumSourceBlocks_eq_ok c _ (show c.K_max ≠ 0 by omega),
    Checked._maxAllowedInterleaverLength_eq_ok c T (show c.Al ≠ 0 by omega),
    bind, Except.bind, pure, Except.pure]
  split_ifs <;> rfl

theorem Except_ok_bind {ε α β : Type} (a : α) (f : α → Except ε β) :
    (Except.ok a >>= f) = f a := rfl

theorem Checked.areValidDeriverParameters_eq_ok (c : InternalConstants) (hc : c.WellTyped)
    (hT1 : 1 ≤ c.T_min) (hAl : 1 ≤ c.Al) (hKt : 1 ≤ c.Kt_max) (hZ : 1 ≤ c.Z_max)
    (sysCeil : Nat → Nat) (F T WS : Nat) :
    Checked.areValidDeriverParameters c sysCeil F T WS =
      .ok (Orq.areValidDeriverParameters c sysCeil F T WS) := by
  simp only [Checked.areValidDeriverParameters, Orq.areValidDeriverParameters]
  cases h2 : isSymbolSizeOutOfBounds c (ofInt 16 (toInt (T : Int)))
  swap
  · simp only [↓reduceIte, pure, Except.pure]
    split_ifs <;> rfl
  have hT := symbolSize_ne_zero_of_in_bounds c hc hT1 _ h2
  have e1 := Checked.minDecodingBlockSize_eq_ok c hc hT1 hAl hZ sysCeil
  have e2 := Checked._minAllowedSymbolSize_eq_ok c (ofInt 64 (toLong (F : Int)))
    (show c.Kt_max ≠ 0 by omega)
  have e3 := Checked._minAllowedDecodingBlockSize_eq_ok c sysCeil (ofInt 64 (toLong (F : Int)))
      _ hT (show c.Z_max ≠ 0 by omega) (u8_Al_ne_zero c hc hAl)
  rw [e1, e2, e3]
  rw [Except_ok_bind, Except_ok_bind, Except_ok_bind]
  split_ifs <;> rfl

theorem Checked._checkDecodingBlockSizeOutOfBounds_eq_lift (c : InternalConstants)
    (hc : c.WellTyped) (hT1 : 1 ≤ c.T_min) (hAl : 1 ≤ c.Al) (hZ : 1 ≤ c.Z_max)
    (sysCeil : Nat → Nat) (WS : Nat) :
    Checked._checkDecodingBlockSizeOutOfBounds c sysCeil WS =
      liftExcept (Orq._checkDecodingBlockSizeOutOfBounds c sysCeil WS) := by
  unfold Checked._checkDecodingBlockSizeOutOfBounds Orq._checkDecodingBlockSizeOutOfBounds
  rw [Checked.minDecodingBlockSize_eq_ok c hc hT1 hAl hZ sysCeil]
  by_cases h : WS < Orq.minDecodingBlockSize c sysCeil
  · simp [h, liftExcept, bind, Except.bind, throw, throwThe, MonadExceptOf.throw]
  · simp [h, liftExcept, bind, Except.bind, pure, Except.pure]

theorem Checked.maxAllowedDataLengthWS_eq_lift (c : InternalConstants) (hc : c.WellTyped)
    (hT1 : 1 ≤ c.T_min) (hAl : 1 ≤ c.Al) (hZ : 1 ≤ c.Z_max)
    (hsub : c.Al * Orq.ceilDiv c.T_max c.Al < 2 ^ 16)
    (sysCeil sysFloor : Nat → Nat) (P WS : Nat) :
    Checked.maxAllowedDataLengthWS c sysCeil sysFloor P WS =
      liftExcept (Orq.maxAllowedDataLengthWS c sysCeil sysFloor P WS) := by
  unfold Checked.maxAllowedDataLengthWS Orq.maxAllowedDataLengthWS
  rcases _checkPayloadLengthOutOfBounds_cases c P with ⟨hb, h⟩ | ⟨e, h⟩
  swap
  · rw [h]; rfl
  have hP := symbolSize_ne_zero_of_in_bounds c hc hT1 P hb
  have hPmax := symbolSize_le_max_of_in_bounds c hc P hb
  have hs := subSymbolSize_ne_zero c hc hAl hsub P (by omega) hPmax
  rw [h, Checked._checkDecodingBlockSizeOutOfBounds_eq_lift c hc hT1 hAl hZ sysCeil WS,
    Checked._maxAllowedDataLengthWS_eq_ok c sysFloor P WS hP (u8_Al_ne_zero c hc hAl) hs]
  cases Orq._checkDecodingBlockSizeOutOfBounds c sysCeil WS
  · rfl
  by_cases hlt : WS < P
  · simp [hlt, liftExcept, bind, Except.bind, throw, throwThe, MonadExceptOf.throw]
  · simp [hlt, liftExcept, bind, Except.bind, pure, Except.pure]

/-- C20, as stated, fails: the constants `unalignedConstants` fit their types
and have `T_min`, `Al`, `K_max`, `Kt_max`, `Z_max` at least 1; the payload
length 65535 is within its bounds, its sub-symbol size `2 * ceil(65535 / 2)`
wraps to 0 in 16 bits, and the public `maxAllowedDataLength(65535, 100000)`
passes its three checks and then divides `WS` by that 0 inside `KL`. -/
theorem maxAllowedDataLengthWS_divides_by_zero :
    (unalignedConstants.WellTyped ∧ 1 ≤ unalignedConstants.T_min ∧
      1 ≤ unalignedConstants.Al ∧ 1 ≤ unalignedConstants.K_max ∧
      1 ≤ unalignedConstants.Kt_max ∧ 1 ≤ unalignedConstants.Z_max) ∧
    (unalignedConstants.T_min ≤ 65535 ∧ 65535 ≤ unalignedConstants.T_max) ∧
    topInterleaverLength 65535 = 1 ∧
    subSymbolSize 65535 (u8 unalignedConstants.Al) 1 = 0 ∧
    Checked.maxAllowedDataLengthWS unalignedConstants (ceilToSystematic sampleSystematic)
      (floorToSystematic sampleSystematic) 65535 100000 = .error .divisionByZero :=
  ⟨by decide, by decide, by decide, by decide, rfl⟩

/-- C20, amended: for scheme constants that fit their types with `T_min`, `Al`,
`K_max`, `Kt_max`, `Z_max` at least 1 and such that the sub-symbol size of the
largest symbol, `Al * ceil(T_max / Al)`, fits 16 bits, no public operation of
`ParameterChecker` that contains a division evaluates a division by zero, for
any input; and for every `T` within its bounds `topInterleaverLength(T)` is 1
and `subSymbolSize(T, Al, 1)` is not zero. -/
theorem no_division_by_zero (c : InternalConstants) (hc : c.WellTyped)
    (hT1 : 1 ≤ c.T_min) (hAl : 1 ≤ c.Al) (hK : 1 ≤ c.K_max) (hKt : 1 ≤ c.Kt_max)
    (hZ : 1 ≤ c.Z_max) (hsub : c.Al * ceilDiv c.T_max c.Al < 2 ^ 16)
    (sysCeil sysFloor : Nat → Nat) :
    (∀ F, Checked.minAllowedSymbolSize c F ≠ .error .divisionByZero) ∧
    (∀ F, Checked.minAllowedPayloadLength c F ≠ .error .divisionByZero) ∧
    (∀ F T, Checked.minAllowedNumSourceBlocks c F T ≠ .error .divisionByZero) ∧
    (∀ F T, Checked.maxAllowedNumSourceBlocks c F T ≠ .error .divisionByZero) ∧
    (∀ T, Checked.maxAllowedInterleaverLength c T ≠ .error .divisionByZero) ∧
    (∀ F T Z N, Checked.areValidFECParameters c F T Z N ≠ .error .divisionByZero) ∧
    Checked.minDecodingBlockSize c sysCeil ≠ .error .divisionByZero ∧
    (∀ F P, Checked.minAllowedDecodingBlockSize c sysCeil F P ≠ .error .divisionByZero) ∧
    (∀ P WS, Checked.maxAllowedDataLengthWS c sysCeil sysFloor P WS
      ≠ .error .divisionByZero) ∧
    (∀ F P WS, Checked.areValidDeriverParameters c sysCeil F P WS
      ≠ .error .divisionByZero) ∧
    (∀ T, c.T_min ≤ T → T ≤ c.T_max →
      topInterleaverLength T = 1 ∧ subSymbolSize T (u8 c.Al) 1 ≠ 0) := by
  refine ⟨?_, ?_, ?_, ?_, ?_, ?_, ?_, ?_, ?_, ?_, ?_⟩
  · intro F
    rw [Checked.minAllowedSymbolSize_eq_lift c hKt F]
    exact liftExcept_ne_divisionByZero _
  · intro F
    unfold Checked.minAllowedPayloadLength
    rw [Checked.minAllowedSymbolSize_eq_lift c hKt F]
    exact liftExcept_ne_divisionByZero _
  · intro F T
    rw [Checked.minAllowedNumSourceBlocks_eq_lift c hc hT1 hK F T]
    exact liftExcept_ne_divisionByZero _
  · intro F T
    rw [Checked.maxAllowedNumSourceBlocks_eq_lift c hc hT1 F T]
    exact liftExcept_ne_divisionByZero _
  · intro T
    rw [Checked.maxAllowedInterleaverLength_eq_lift c hAl T]
    exact liftExcept_ne_divisionByZero _
  · intro F T Z N
    rw [Checked.areValidFECParameters_eq_ok c hc hT1 hAl hK F T Z N]
    exact fun h => by cases h
  · rw [Checked.minDecodingBlockSize_eq_ok c hc hT1 hAl hZ sysCeil]
    exact fun h => by cases h
  · intro F P
    rw [Checked.minAllowedDecodingBlockSize_eq_lift c hc hT1 hAl hZ sysCeil F P]
    exact liftExcept_ne_divisionByZero _
  · intro P WS
    rw [Checked.maxAllowedDataLengthWS_eq_lift c hc hT1 hAl hZ hsub sysCeil sysFloor P WS]
    exact liftExcept_ne_divisionByZero _
  · intro F P WS
    rw [Checked.areValidDeriverParameters_eq_ok c hc hT1 hAl hKt hZ sysCeil F P WS]
    exact fun h => by cases h
  · intro T h1 h2
    exact ⟨topInterleaverLength_of_pos T (by omega),
      subSymbolSize_ne_zero c hc hAl hsub T (by omega) h2⟩

theorem no_division_by_zero_witness :
    (raptorQ.WellTyped ∧ 1 ≤ raptorQ.T_min ∧ 1 ≤ raptorQ.Al ∧ 1 ≤ raptorQ.K_max ∧
      1 ≤ raptorQ.Kt_max ∧ 1 ≤ raptorQ.Z_max ∧
      raptorQ.Al * ceilDiv raptorQ.T_max raptorQ.Al < 2 ^ 16) ∧
    Checked.maxAllowedDataLengthWS raptorQ (ceilToSystematic sampleSystematic)
      (floorToSystematic sampleSystematic) 65535 100000 ≠ .error .divisionByZero :=
  ⟨by decide,
    (no_division_by_zero raptorQ (by decide) (by decide) (by decide) (by decide) (by decide)
      (by decide) (by decide) (ceilToSystematic sampleSystematic)
      (floorToSystematic sampleSystematic)).2.2.2.2.2.2.2.2.1 65535 100000⟩

/-! ## The memory constraint on the formulas of the spec -/

/-- On the formulas of the spec, without the two narrowing conversions of the
code, the relation of C18 holds: every `(F, T, WS)` accepted by
`areValidDeriverParameters` has `F <= min(min(F_max, T * Kt_max),
Z_max * maxSourceSymbolsForMemory(WS, T, Al, 1) * T)`.  `sysCeil` and `sysFloor`
are a ceiling and a floor onto the same supported sequence: `sysCeil k` is at
least `k` and at most `K_max` for `k <= K_max`, and `sysFloor x` is at least
every value of `sysCeil` that is at most `x`. -/
theorem dataLength_le_specBound_of_valid (c : InternalConstants) (hc : c.WellTyped)
    (hT1 : 1 ≤ c.T_min) (hAl : 1 ≤ c.Al) (hZ : 1 ≤ c.Z_max) (hKt1 : 1 ≤ c.Kt_max)
    (hKt31 : c.Kt_max < 2 ^ 31) (hKtK : c.Kt_max ≤ c.K_max * c.Z_max) (hK10 : 10 ≤ c.K_max)
    (hFmax : ceilDiv c.F_max c.Kt_max < 2 ^ 16)
    (hsub : c.Al * ceilDiv c.T_max c.Al < 2 ^ 16)
    (sysCeil sysFloor : Nat → Nat) (hs : ∀ k, sysCeil k < 2 ^ 47)
    (hck : ∀ k, k ≤ c.K_max → k ≤ sysCeil k ∧ sysCeil k ≤ c.K_max)
    (hfc : ∀ k x, sysCeil k ≤ x → sysCeil k ≤ sysFloor x)
    (F T WS : Nat) (hF : F < 2 ^ 64) (hT : T < 2 ^ 16) (hWS : WS < 2 ^ 64)
    (h : areValidDeriverParameters c sysCeil F T WS = true) :
    F ≤ min (min c.F_max (T * c.Kt_max))
      (c.Z_max * specKL c sysFloor WS T c.Al 1 * T) := by
  have hK16 : c.K_max < 2 ^ 16 := hc.2.2.2.2.2.2.2.2.2.1
  have hAl8 : c.Al < 2 ^ 8 := hc.2.2.2.2.2.2.2.2.2.2.2.1
  have hWS63 : WS < 2 ^ 63 := by
    by_contra hcon
    have := areValidDeriverParameters_false_of_large c sysCeil F T WS (by omega) hWS
      (minWS_lt sysCeil hs _ _ _ _)
    rw [this] at h
    exact Bool.false_ne_true h
  rw [areValidDeriverParameters_iff_spec_of_lt c hc sysCeil hs hFmax F T WS hF hT hWS63] at h
  obtain ⟨⟨-, hFle⟩, ⟨hTge, hTle⟩, -, hminT, hminWS⟩ := h
  have hTpos : 0 < T := by omega
  -- the bound from the symbol size
  have h1 : F ≤ T * c.Kt_max :=
    (ceilDiv_le_iff F c.Kt_max T (by omega)).1 (le_trans (le_max_right _ _) hminT)
  have hKt : ceilDiv F T ≤ c.Kt_max := by
    rw [ceilDiv_le_iff F T _ hTpos, Nat.mul_comm]; exact h1
  -- the bound from the memory budget
  have hq : ceilDiv (ceilDiv F T) c.Z_max ≤ c.K_max := by
    rw [ceilDiv_le_iff _ c.Z_max _ (by omega)]; exact le_trans hKt hKtK
  have hsubT : c.Al * ceilDiv T c.Al < 2 ^ 16 :=
    lt_of_le_of_lt (Nat.mul_le_mul_left _ (ceilDiv_mono T c.T_max c.Al hTle)) hsub
  rw [_minAllowedDecodingBlockSize_eq c sysCeil hs hAl8 F T hF (by omega) (by omega)
    (by omega) hsubT] at hminWS
  have e3 : subSymbolSize T c.Al 1 = c.Al * ceilDiv T c.Al := by
    have := subSymbolSize_eq_of_lt T c.Al 1 (by rw [Nat.mul_one]; exact hsubT)
    rw [Nat.mul_one] at this; exact this
  have hsubpos : 0 < c.Al * ceilDiv T c.Al := by
    have hq1 : 1 ≤ ceilDiv T c.Al := by
      by_contra hcon
      have h0 : ceilDiv T c.Al ≤ 0 := by omega
      rw [ceilDiv_le_iff T c.Al 0 hAl] at h0
      omega
    exact Nat.mul_pos hAl hq1
  have hK' : max 10 (ceilDiv (ceilDiv F T) c.Z_max) ≤ c.K_max := max_le hK10 hq
  obtain ⟨hc1, hc2⟩ := hck _ hK'
  have hquot : sysCeil (max 10 (ceilDiv (ceilDiv F T) c.Z_max))
      ≤ WS / (c.Al * ceilDiv T c.Al) := (Nat.le_div_iff_mul_le hsubpos).2 hminWS
  have hfloor : ceilDiv (ceilDiv F T) c.Z_max ≤ specKL c sysFloor WS T c.Al 1 := by
    unfold specKL
    rw [e3]
    exact le_trans (le_trans (le_max_right _ _) hc1) (hfc _ _ (le_min hc2 hquot))
  have h2 : F ≤ c.Z_max * specKL c sysFloor WS T c.Al 1 * T := by
    have a1 : F ≤ ceilDiv F T * T := le_ceilDiv_mul F T hTpos
    have a2 : ceilDiv F T ≤ ceilDiv (ceilDiv F T) c.Z_max * c.Z_max :=
      le_ceilDiv_mul _ _ (by omega)
    have a3 : ceilDiv (ceilDiv F T) c.Z_max * c.Z_max
        ≤ c.Z_max * specKL c sysFloor WS T c.Al 1 := by
      rw [Nat.mul_comm]; exact Nat.mul_le_mul_left _ hfloor
    exact le_trans a1 (Nat.mul_le_mul_right _ (le_trans a2 a3))
  exact le_min (le_min hFle h1) h2

/-- The hypotheses of `dataLength_le_specBound_of_valid` hold for the RaptorQ
constants and the supported sequence of all sizes up to `K_max`; at the first
input of C18 the bound on the formulas of the spec is met. -/
theorem dataLength_le_specBound_of_valid_example :
    areValidDeriverParameters raptorQ (fun k => min k 56403) 14439168 1 65546 = true ∧
      14439168 ≤ min (min raptorQ.F_max (1 * raptorQ.Kt_max))
        (raptorQ.Z_max * specKL raptorQ (fun k => min k 56403) 65546 1 raptorQ.Al 1 * 1) :=
  ⟨by decide,
    dataLength_le_specBound_of_valid raptorQ (by decide) (by decide) (by decide) (by decide)
      (by decide) (by decide) (by decide) (by decide) (by decide) (by decide)
      (fun k => min k 56403) (fun k => min k 56403)
      (fun _ => lt_of_le_of_lt (min_le_right _ _) (by decide))
      (fun k hk => ⟨le_min (le_refl _) hk, min_le_right _ _⟩)
      (fun _ _ hx => le_min hx (min_le_right _ _))
      14439168 1 65546 (by decide) (by decide) (by decide) (by decide)⟩

end Orq
